import Mathlib

/-!
Verification of the battle-content generator (`src/app.py`).

The source is a single Python file.  We shallow-embed its core pipeline:
floats become `ℚ`, Python `int` becomes `ℤ`, the shared global
pseudo-random generator becomes an explicit `Nat` state threaded through
every randomized function, and fallible loading code returns `Option`.
-/

namespace App

/-! ### The shared pseudo-random generator

Modelled from the spec: the source routes all randomness through one shared
pseudo-random generator (Python's `random` module, which is standard-library
code, not part of this repository).  The spec describes it as a deterministic
state machine whose "seed is explicitly reset immediately before each
independent unit of work".  We model its state as a `Nat` with a
linear-congruential step; each drawing primitive is a deterministic function
of the state.  Only determinism of seeding and stepping matters for the
claims, never the concrete values drawn. -/

/-- `random.seed n`: the state becomes a function of `n` alone. -/
def pySeed (n : Nat) : Nat := n % 2 ^ 64

/-- One generator step: next raw draw (a number below `2^32`) and next state. -/
def randNat (s : Nat) : Nat × Nat :=
  let s2 := (6364136223846793005 * s + 1442695040888963407) % 2 ^ 64
  (s2 / 2 ^ 32, s2)

/-- `random.random()`: a rational in `[0, 1)`. -/
def randFloat (s : Nat) : ℚ × Nat :=
  let r := randNat s
  ((r.1 : ℚ) / 2 ^ 32, r.2)

/-- `random.uniform a b`. -/
def pyUniform (a b : ℚ) (s : Nat) : ℚ × Nat :=
  let r := randFloat s
  (a + (b - a) * r.1, r.2)

/-- `random.randint a b` (both ends inclusive; the source always calls it with
`a ≤ b`). -/
def pyRandint (a b : ℤ) (s : Nat) : ℤ × Nat :=
  let r := randNat s
  (a + (r.1 : ℤ) % (b - a + 1), r.2)

/-- `random.choice l`.  Python raises on an empty list; the source only ever
passes non-empty lists, so we return `d` in that unreachable case. -/
def pyChoice {α : Type} (l : List α) (d : α) (s : Nat) : α × Nat :=
  let r := randNat s
  (l.getD (r.1 % l.length) d, r.2)

/-! ### Python numeric and string helpers (standard library behaviour) -/

/-- Python `int(q)` on a float: truncation toward zero. -/
def pyInt (q : ℚ) : ℤ := if q < 0 then -⌊-q⌋ else ⌊q⌋

/-- `pyInt` on an exact integer is that integer. -/
theorem pyInt_intCast (n : ℤ) : pyInt (n : ℚ) = n := by
  unfold pyInt
  split
  · rw [← Int.cast_neg, Int.floor_intCast]; omega
  · exact Int.floor_intCast n

/-- Round half to even (Python's `round` on exact values). -/
def roundHalfEven (x : ℚ) : ℤ :=
  let f := x.floor
  let r := x - f
  if r < 1 / 2 then f
  else if 1 / 2 < r then f + 1
  else if f % 2 = 0 then f else f + 1

/-- Python `round(x, 1)`. -/
def pyRound1 (x : ℚ) : ℚ := (roundHalfEven (x * 10) : ℚ) / 10

/-- Does `pat` occur as a contiguous run at the front of `s`? -/
def List.isPrefixOfCh (pat s : List Char) : Bool :=
  match pat, s with
  | [], _ => true
  | _ :: _, [] => false
  | p :: ps, c :: cs => p == c && List.isPrefixOfCh ps cs

/-- Does `pat` occur anywhere inside `s` (Python `pat in s`)? -/
def hasSub (s pat : List Char) : Bool :=
  match s with
  | [] => pat.isEmpty
  | _ :: rest => List.isPrefixOfCh pat s || hasSub rest pat

/-- Python `pat in s` on strings. -/
def strContains (s pat : String) : Bool := hasSub s.toList pat.toList

/-- Left-to-right non-overlapping replacement, the semantics of Python
`str.replace`: scan from the left; at a match, emit the replacement and jump
past the match; otherwise emit one character and move on.  `fuel` bounds the
recursion; the wrapper passes the length of the string, which suffices
because every step consumes at least one character. -/
def replaceAux (pat repl : List Char) : Nat → List Char → List Char
  | _, [] => []
  | 0, s => s
  | fuel + 1, c :: rest =>
    if pat ≠ [] ∧ List.isPrefixOfCh pat (c :: rest) then
      repl ++ replaceAux pat repl fuel ((c :: rest).drop pat.length)
    else
      c :: replaceAux pat repl fuel rest

/-- Python `s.replace(pat, repl)`. -/
def strReplace (s pat repl : String) : String :=
  String.mk (replaceAux pat.toList repl.toList s.toList.length s.toList)

/-- Lower-case the first character (Python `s[0].lower() + s[1:]`). -/
def lowerFirst (s : String) : String :=
  match s.toList with
  | [] => ""
  | c :: rest => String.mk (c.toLower :: rest)

/-- Python `s.strip(", ")`: remove any leading/trailing commas and spaces. -/
def stripCommaSpace (s : String) : String :=
  let cs := s.toList
  let cut : Char → Bool := fun c => c == ',' || c == ' '
  String.mk (((cs.dropWhile cut).reverse.dropWhile cut).reverse)

/-- Python `s.split(",")[0]`. -/
def firstCommaField (s : String) : String := (s.splitOn ",").headD ""

/-- Group the reversed digit list of a natural number in threes (helper for
`commaFmt`). -/
def commaGroupRev : List Char → Nat → List Char
  | [], _ => []
  | c :: rest, i =>
    if i ≠ 0 ∧ i % 3 = 0 then c :: ',' :: commaGroupRev rest (i + 1)
    else c :: commaGroupRev rest (i + 1)

/-- Python `f"{n:,}"`: decimal with thousands separators. -/
def commaFmt (n : ℤ) : String :=
  let body := String.mk ((commaGroupRev (toString n.natAbs).toList.reverse 0).reverse)
  (if n < 0 then "-" else "") ++ body

/-- Two-decimal rendering, Python `f"{q:.2f}"`. -/
def fmt2 (q : ℚ) : String :=
  let m := roundHalfEven (q * 100)
  let a := m.natAbs
  let frac := a % 100
  (if m < 0 then "-" else "") ++ toString (a / 100) ++ "." ++
    (if frac < 10 then "0" else "") ++ toString frac

/-- Modelled from the spec: `textwrap.fill(s, width)` is standard-library code
absent from the repository; it re-flows a paragraph by splitting on
whitespace and greedily filling lines up to `width` characters.  Claims only
depend on this being a deterministic total function. -/
def textwrapFill (width : Nat) (s : String) : String :=
  let words := (s.split Char.isWhitespace).filter (fun w => w ≠ "")
  let step : (List String × String) → String → (List String × String) :=
    fun acc w =>
      let (done, cur) := acc
      if cur = "" then (done, w)
      else if cur.length + 1 + w.length ≤ width then (done, cur ++ " " ++ w)
      else (done ++ [cur], w)
  let (done, cur) := words.foldl step ([], "")
  String.intercalate "\n" (if cur = "" then done else done ++ [cur])

/-! ### Domain model (`Faction` dataclass and the static tables) -/

/-- The `Faction` dataclass.  Attribute values are Python ints (the comments
in the source say 0-5, but nothing enforces that at runtime). -/
structure Faction where
  name : String
  era : String
  ranged : ℤ
  cavalry : ℤ
  infantry : ℤ
  armor : ℤ
  discipline : ℤ
  siege : ℤ
  logistics : ℤ
  naval : ℤ
  terrain_pref : List String
  palettes : List String
  motifs : List String
deriving DecidableEq

/-- The base knowledge base `KB`, a name-keyed table (insertion order of the
Python dict literal preserved). -/
def KB : List (String × Faction) := [
  ("Han Dynasty", ⟨"Han Dynasty", "Classical China", 4, 3, 4, 3, 4, 3, 4, 3, ["plains", "hills"], ["imperial red", "jade green"], ["crossbows", "chariots", "drums"]⟩),
  ("Tang Dynasty", ⟨"Tang Dynasty", "Golden Age China", 4, 3, 4, 3, 4, 3, 4, 3, ["plains", "urban"], ["silk banners", "dragon gold"], ["heavy cavalry", "crossbows", "artistry"]⟩),
  ("Song Dynasty", ⟨"Song Dynasty", "Medieval China", 4, 2, 3, 3, 4, 4, 4, 3, ["river valleys", "urban"], ["porcelain blue", "ink black"], ["gunpowder arrows", "siege engines", "scholar warriors"]⟩),
  ("Yuan Dynasty", ⟨"Yuan Dynasty", "Mongol China", 5, 5, 3, 3, 4, 4, 5, 3, ["steppe", "plains"], ["jade and sable", "storm skies"], ["horse archers", "mass cavalry", "keshik guards"]⟩),
  ("Ming Dynasty", ⟨"Ming Dynasty", "Early Modern China", 4, 3, 4, 4, 4, 5, 5, 4, ["plains", "walls"], ["vermilion", "forbidden purple"], ["arquebuses", "fortress cannons", "dragon fleets"]⟩),
  ("Qing Dynasty", ⟨"Qing Dynasty", "Late Imperial China", 4, 4, 4, 4, 4, 4, 4, 4, ["plains", "urban"], ["yellow banners", "imperial silver"], ["banner armies", "matchlocks", "cavalry"]⟩),
  ("Samurai", ⟨"Samurai", "Feudal Japan", 3, 2, 4, 3, 4, 2, 3, 3, ["hills", "forests"], ["lacquered black", "blood red"], ["katana duel", "yumi volleys", "bushido"]⟩),
  ("Ashigaru", ⟨"Ashigaru", "Feudal Japan", 3, 2, 3, 2, 3, 2, 3, 2, ["plains", "hills"], ["peasant brown", "spear lines"], ["yari spear wall", "arquebus", "ashigaru levy"]⟩),
  ("Ninja", ⟨"Ninja", "Feudal Japan", 4, 1, 2, 1, 4, 1, 2, 1, ["forests", "urban"], ["shadow black", "midnight blue"], ["assassins", "smoke bombs", "stealth raids"]⟩),
  ("Koreans", ⟨"Koreans", "Three Kingdoms/Joseon", 3, 3, 3, 3, 3, 3, 3, 3, ["hills", "coast"], ["turtle ships", "crimson armor"], ["archers", "swords", "navy"]⟩),
  ("Khmer", ⟨"Khmer", "Angkor", 3, 2, 3, 3, 3, 3, 3, 3, ["river valleys", "urban"], ["stone grey", "jungle green"], ["war elephants", "temple guards", "fortresses"]⟩),
  ("Thai", ⟨"Thai", "Ayutthaya", 3, 3, 3, 2, 3, 2, 3, 2, ["plains", "river valleys"], ["golden spires", "saffron"], ["elephants", "archers", "palace guards"]⟩),
  ("Vietnamese", ⟨"Vietnamese", "Medieval", 3, 3, 3, 2, 3, 2, 3, 2, ["forests", "river valleys"], ["jungle mist", "bronze drums"], ["guerrilla warfare", "spears", "boats"]⟩),
  ("Mongols", ⟨"Mongols", "Steppe Empire", 5, 5, 2, 2, 4, 3, 5, 1, ["steppe", "plains"], ["cold steppe blues", "dust storms"], ["horse archers", "encirclement", "keshik charge"]⟩),
  ("Huns", ⟨"Huns", "Late Antiquity", 4, 5, 1, 1, 3, 1, 3, 1, ["steppe", "plains"], ["storm grey", "leather"], ["composite bows", "raids", "scorched earth"]⟩),
  ("Tatars", ⟨"Tatars", "Steppe", 4, 4, 2, 2, 3, 2, 3, 1, ["plains", "steppe"], ["sable brown", "steppe haze"], ["raids", "sabres", "horse bows"]⟩),
  ("Tibetans", ⟨"Tibetans", "Himalayan", 3, 2, 3, 2, 3, 2, 3, 2, ["hills", "snow"], ["mountain mist", "prayer flags"], ["yak cavalry", "slings", "monastery warriors"]⟩),
  ("Burmese", ⟨"Burmese", "Pagan", 3, 2, 3, 2, 3, 2, 3, 2, ["river valleys", "forests"], ["golden pagodas", "teak wood"], ["war elephants", "spears", "temple guards"]⟩),
  ("Japanese Clans", ⟨"Japanese Clans", "Sengoku", 3, 2, 4, 3, 4, 2, 3, 3, ["hills", "forests"], ["clan banners", "steel grey"], ["katana", "yari", "teppo"]⟩),
  ("Chinese Warlords", ⟨"Chinese Warlords", "Warring States", 4, 3, 4, 3, 3, 3, 3, 3, ["plains", "hills"], ["bronze", "warring colors"], ["crossbows", "chariots", "infantry"]⟩),
  ("Romans", ⟨"Romans", "Classical", 2, 2, 5, 4, 5, 5, 5, 3, ["plains", "hills"], ["iron red", "sandstone"], ["testudo", "pilum volley", "eagle standards"]⟩),
  ("Greeks", ⟨"Greeks", "Classical", 2, 2, 4, 3, 4, 3, 4, 4, ["hills", "coast"], ["bronze", "Aegean blue"], ["phalanx", "triremes", "hoplons"]⟩),
  ("Spartans", ⟨"Spartans", "Classical Greek", 2, 1, 5, 4, 5, 2, 3, 1, ["hills", "plains"], ["bronze red cloaks", "laconic steel"], ["phalanx wall", "shield clash", "spear thrust"]⟩),
  ("Vikings", ⟨"Vikings", "Norse", 2, 1, 4, 3, 3, 2, 2, 5, ["coast", "snow"], ["cold blue", "storm seas"], ["longships", "axes", "shield wall"]⟩),
  ("Carthaginians", ⟨"Carthaginians", "Classical", 2, 2, 3, 3, 3, 3, 4, 5, ["coast", "plains"], ["Tyrian purple", "sunlit harbors"], ["elephants", "quinqueremes", "mercenary lines"]⟩),
  ("Celts", ⟨"Celts", "Iron Age", 2, 2, 3, 2, 2, 1, 2, 2, ["forests", "hills"], ["verdant greens", "storm-grey"], ["war cries", "chariots", "wild charge"]⟩),
  ("Byzantines", ⟨"Byzantines", "Medieval", 3, 3, 4, 3, 4, 4, 4, 4, ["urban", "hills"], ["imperial gold", "purple cloaks"], ["cataphracts", "Greek fire", "defensive lines"]⟩),
  ("Knights", ⟨"Knights", "High Medieval", 2, 4, 4, 4, 3, 2, 3, 2, ["plains", "hills"], ["steel and heraldry", "castle stone"], ["lance charge", "plate armor", "standards"]⟩),
  ("Gauls", ⟨"Gauls", "Iron Age", 2, 2, 3, 2, 2, 1, 2, 2, ["forests", "plains"], ["wode-blue", "forest haze"], ["horns", "chariots", "wild charge"]⟩),
  ("Macedonians", ⟨"Macedonians", "Classical", 2, 2, 5, 3, 4, 3, 4, 3, ["plains", "hills"], ["royal purple", "sarissa shine"], ["phalanx", "cavalry wedge", "siege towers"]⟩),
  ("Persians", ⟨"Persians", "Achaemenid", 3, 3, 3, 2, 3, 3, 4, 3, ["plains", "desert"], ["lapis", "amber"], ["Immortals", "war elephants", "chariots"]⟩),
  ("Ottomans", ⟨"Ottomans", "Gunpowder Empire", 4, 3, 4, 3, 4, 5, 4, 4, ["plains", "urban"], ["emerald", "smoke"], ["janissaries", "bombards", "crescent"]⟩),
  ("Mughals", ⟨"Mughals", "Early Modern India", 4, 3, 4, 3, 4, 4, 4, 3, ["plains", "river valleys"], ["silk brocade", "marble domes"], ["war elephants", "matchlocks", "archers"]⟩),
  ("Arabs", ⟨"Arabs", "Early Islamic", 3, 4, 3, 2, 3, 2, 3, 3, ["desert", "plains"], ["desert gold", "crescent silver"], ["cavalry charge", "archery", "faith"]⟩),
  ("Turks", ⟨"Turks", "Seljuk", 3, 3, 3, 3, 3, 3, 3, 2, ["plains", "hills"], ["silk banners", "desert steel"], ["cavalry charge", "archery volleys", "siege engines"]⟩),
  ("Egyptians", ⟨"Egyptians", "Bronze to Late", 2, 2, 3, 2, 3, 3, 3, 3, ["desert", "river valleys"], ["sunstone", "Nile reeds"], ["chariots", "archers", "sacred standards"]⟩),
  ("Mali", ⟨"Mali", "Sahelian Medieval", 2, 2, 3, 2, 3, 2, 4, 2, ["desert", "river valleys"], ["gold dust", "Sahara dusk"], ["cavalry", "griots", "caravans"]⟩),
  ("Ethiopians", ⟨"Ethiopians", "Axumite/Solomonic", 3, 2, 3, 2, 3, 2, 3, 2, ["hills", "river valleys"], ["highland blues", "basalt"], ["spears", "rock-hewn lines", "shields"]⟩),
  ("Zulu", ⟨"Zulu", "19th c.", 2, 2, 4, 2, 4, 1, 2, 1, ["plains", "hills"], ["savanna gold", "storm build"], ["impi horns", "assegai", "shield rush"]⟩),
  ("Numidians", ⟨"Numidians", "North Africa", 2, 3, 2, 2, 3, 2, 3, 3, ["plains", "desert"], ["desert tan", "oasis green"], ["light cavalry", "javelins", "skirmishers"]⟩),
  ("Berbers", ⟨"Berbers", "North Africa", 2, 3, 2, 2, 3, 2, 3, 3, ["desert", "hills"], ["desert ochre", "Atlas blue"], ["cavalry raids", "mountain ambush", "desert warfare"]⟩),
  ("Aztecs", ⟨"Aztecs", "Mesoamerican", 3, 1, 3, 2, 3, 1, 2, 1, ["plains", "forests"], ["earthy ochres", "jade"], ["jaguar warriors", "macuahuitl", "eagle knights"]⟩),
  ("Mayans", ⟨"Mayans", "Mesoamerican", 3, 1, 3, 2, 3, 1, 2, 1, ["forests", "hills"], ["verdigris", "jungle mist"], ["atlatl", "obsidian blades", "pyramids"]⟩),
  ("Incas", ⟨"Incas", "Andean", 3, 1, 3, 2, 4, 2, 4, 2, ["hills", "river valleys"], ["andes slate", "sun gold"], ["slings", "terraces", "runners"]⟩),
  ("Native North Americans", ⟨"Native North Americans", "Varied", 3, 2, 2, 1, 3, 1, 2, 1, ["plains", "forests"], ["buffalo plains", "cedar smoke"], ["bows", "lances", "ambushes"]⟩),
  ("Cherokee", ⟨"Cherokee", "Woodlands", 3, 2, 2, 1, 3, 1, 2, 1, ["forests", "hills"], ["forest green", "river stone"], ["bows", "tomahawks", "ambush"]⟩),
  ("Sioux", ⟨"Sioux", "Plains", 3, 4, 3, 2, 3, 1, 2, 1, ["plains", "hills"], ["buffalo hide", "prairie fire"], ["horse archers", "raids", "spears"]⟩),
  ("Iroquois", ⟨"Iroquois", "Woodlands", 3, 2, 3, 2, 3, 1, 2, 1, ["forests", "hills"], ["longhouse wood", "forest mist"], ["bows", "axes", "ambush"]⟩),
  ("Toltecs", ⟨"Toltecs", "Mesoamerican", 3, 1, 3, 2, 3, 1, 2, 1, ["plains", "forests"], ["stone grey", "jade green"], ["warriors", "pyramids", "obsidian blades"]⟩),
  ("Olmecs", ⟨"Olmecs", "Mesoamerican", 2, 1, 2, 2, 2, 1, 2, 1, ["forests", "river valleys"], ["stone heads", "jungle green"], ["clubs", "ambush", "rituals"]⟩),
  ("Indians", ⟨"Indians", "Mauryan-Gupta", 3, 2, 3, 2, 3, 3, 3, 3, ["plains", "river valleys"], ["saffron and teak", "monsoon haze"], ["elephants", "chariots", "archers"]⟩),
  ("Rajputs", ⟨"Rajputs", "Medieval India", 3, 4, 4, 3, 4, 2, 3, 2, ["plains", "hills"], ["rajput saffron", "desert pride"], ["cavalry charge", "honor duels", "fortress warfare"]⟩),
  ("Delhi Sultanate", ⟨"Delhi Sultanate", "Medieval India", 4, 3, 4, 3, 4, 4, 4, 3, ["plains", "urban"], ["sultanate green", "minaret gold"], ["cavalry", "archers", "siege engines"]⟩),
  ("Marathas", ⟨"Marathas", "Early Modern India", 3, 4, 3, 2, 4, 2, 3, 2, ["hills", "plains"], ["saffron banners", "guerrilla brown"], ["guerrilla cavalry", "hill forts", "mobility"]⟩),
  ("Sikhs", ⟨"Sikhs", "18th-19th c.", 3, 3, 4, 3, 4, 2, 3, 2, ["plains", "hills"], ["khalsa blue", "steel kirpan"], ["cavalry", "muskets", "warrior faith"]⟩)]

/-- `TERRAIN_RULES`. -/
def TERRAIN_RULES : List (String × List String) := [
  ("plains", ["sun-bleached flats", "rolling fields"]),
  ("hills", ["misty foothills", "undulating ridgelines"]),
  ("forests", ["dense woodland", "dark conifer stands"]),
  ("steppe", ["endless grass seas", "cold steppe horizon"]),
  ("desert", ["saffron dunes", "heat shimmer and sand haze"]),
  ("coast", ["rocky shoreline", "spray and slate waves"]),
  ("urban", ["broken walls and gatehouses", "narrow streets"]),
  ("walls", ["battlements and siege towers"]),
  ("river valleys", ["broad river meanders", "fog over terraces"]),
  ("open sea", ["whitecaps and spray", "overcast swells"])]

/-- A `WEATHER` table entry: visibility suffix and score delta. -/
structure Weather where
  vis : String
  score : ℚ
deriving DecidableEq

/-- `WEATHER`. -/
def WEATHER : List (String × Weather) := [
  ("clear", ⟨", crisp air", 0⟩),
  ("fog", ⟨", ground fog and haze", -(1/10)⟩),
  ("rain", ⟨", rain sheeting and churned mud", -(1/20)⟩),
  ("snow", ⟨", blowing snow and breath vapor", -(1/20)⟩),
  ("windy", ⟨", whipping banners and dust plumes", -(1/50)⟩)]

/-- A `SCENARIOS` table entry: description and attribute-keyed modifier map
(insertion order preserved). -/
structure Scenario where
  desc : String
  mod : List (String × ℚ)
deriving DecidableEq

/-- `SCENARIOS`. -/
def SCENARIOS : List (String × Scenario) := [
  ("open field", ⟨"battle lines form and advance", [("cavalry", 1/10), ("infantry", 1/20)]⟩),
  ("ambush", ⟨"surprise strike on a flank", [("discipline", -(1/20)), ("cavalry", 1/20), ("ranged", 1/20)]⟩),
  ("river crossing", ⟨"forcing a ford under fire", [("discipline", 1/10), ("ranged", 1/20), ("cavalry", -(1/20))]⟩),
  ("hill defense", ⟨"defender holds ridgeline", [("discipline", 1/20), ("infantry", 1/20), ("ranged", 1/20)]⟩),
  ("siege", ⟨"walls, engines, attrition", [("siege", 3/20), ("logistics", 1/10)]⟩),
  ("naval", ⟨"oared rams, boarding, missiles", [("naval", 3/10), ("ranged", 1/20)]⟩)]

/-- `SCENARIOS[key]` (the resolver assumes valid keys; an unknown key raises
in Python, we default to an empty scenario). -/
def scenGet (key : String) : Scenario := (SCENARIOS.lookup key).getD ⟨"", []⟩

/-- `WEATHER[key]` (same proviso as `scenGet`). -/
def weatherGet (key : String) : Weather := (WEATHER.lookup key).getD ⟨"", 0⟩

/-- `WEATHER.get(key, {"score": 0.0}).get("score", 0.0)` as used by
`estimate_casualties`. -/
def weatherScoreD (key : String) : ℚ := ((WEATHER.lookup key).map Weather.score).getD 0

/-- `MIDJOURNEY_BASE.format(stylize=…, chaos=…)`. -/
def midjourneyBase (stylize chaos : ℤ) : String :=
  "--v 6 --style raw --s " ++ toString stylize ++ " --chaos " ++ toString chaos

/-- `CAMERA_OPTS_169`. -/
def CAMERA_OPTS_169 : List String := [
  "ultra-wide anime energy shot, meteors raining from neon storm skies, armies colliding in fire rain, hyper detail chaos, thunder explosions",
  "drone zoom over colossal banners whipping in hurricane winds, neon lightning splitting dimensions, sparks and debris tornados, cinematic mayhem",
  "ground smash perspective, dust explosions with fire rain, motion blur soldiers mid-leap through meteor showers, impossible scale energy"]

/-- `CAMERA_OPTS_916`. -/
def CAMERA_OPTS_916 : List String := [
  "vertical anime close-up, glowing katana eyes, neon sparks erupting, furious clash mid-frame with dragon lightning",
  "low-angle towering samurai vs cavalry, colossal banners exploding overhead, neon storm skies tearing reality",
  "tight TikTok crop, chaotic firelight with anime energy, steel sparks mid-swing, viral shot composition with meteor rain"]

/-- A `STYLE_PACKS` entry: descriptor phrases and stylize intensities. -/
structure StylePack where
  add : List String
  s : List ℤ
deriving DecidableEq

/-- `STYLE_PACKS` (insertion order preserved; `"rotate"` indexes this order). -/
def STYLE_PACKS : List (String × StylePack) := [
  ("Cinematic", ⟨["cinematic lighting", "storm clouds", "intense contrast"], [250, 300, 350]⟩),
  ("Documentary", ⟨["natural light", "dust haze", "realistic grit"], [200, 220, 240]⟩),
  ("Painterly", ⟨["oil-paint look", "bold color strokes", "dramatic highlights"], [300, 350, 400]⟩),
  ("TikTok-Hype", ⟨["explosive energy", "slow-motion sparks", "hyper-saturated colors", "viral thumbnail quality", "lightning strikes", "fire explosions"], [350, 400, 450]⟩),
  ("FULL-CRACKED-ASIAN", ⟨["anime battle energy", "glowing katanas", "dragon lightning", "neon storm skies", "impossible scale", "maximum chaos", "meteors raining", "fire rain cascades", "colossal banners"], [400, 450, 500]⟩)]

/-- `PRESETS` (palette, camera). -/
def PRESETS : List (String × (String × String)) := [
  ("Romans", ("iron and crimson", "low-angle wide")),
  ("Mongols", ("cold steppe blues", "telephoto compression")),
  ("Samurai", ("lacquered black and vermilion", "portrait close-up")),
  ("Ottomans", ("emerald and gold", "elevated three-quarters view"))]

/-- `BANNED`.  In Python this is a set; its iteration order inside `sanitize`
is unspecified.  We fix the literal order; no claim depends on the order. -/
def BANNED : List String := ["savage", "barbaric", "primitive"]

/-- `COMMANDERS`: trait name → attribute-keyed additive bonuses. -/
def COMMANDERS : List (String × List (String × ℚ)) := [
  ("aggressive", [("cavalry", 1/20), ("initiative", 1/20)]),
  ("defensive", [("discipline", 1/20), ("armor", 3/100)]),
  ("cunning", [("ranged", 1/20), ("initiative", 3/100)]),
  ("logistician", [("logistics", 2/25)])]

/-! ### User-supplied faction definitions (`_factions_from_json` and merge)

User definitions arrive as JSON values.  We model the values seen by the
loader with a small inductive type (`int`, `str`, `list`), the dicts as
association lists, and a `Faction` construction that fails (Python: raises,
caught by the loader) exactly when a field conversion fails. -/

/-- A JSON-decoded Python value as the loader sees it. -/
inductive PyVal where
  | int (n : ℤ)
  | str (s : String)
  | list (l : List PyVal)

/-- Python `d.get(k, default)`. -/
def dGet (d : List (String × PyVal)) (k : String) (default : PyVal) : PyVal :=
  (d.lookup k).getD default

/-- Python `str(v)` as a display string (used only for the `era` field, which
the dataclass stores without validation; claims never inspect it). -/
def pyStr : PyVal → String
  | .int n => toString n
  | .str s => s
  | .list _ => "[...]"

/-- Python `int(v)`: succeeds on ints and numeric strings, raises otherwise. -/
def pyIntConv : PyVal → Option ℤ
  | .int n => some n
  | .str s => s.toInt?
  | .list _ => none

/-- Python `list(v)`: a list is kept as is, a string becomes its characters,
anything else raises.  Elements are represented by their display strings
(only element count and string identity matter to the claims). -/
def pyListConv : PyVal → Option (List String)
  | .list l => some (l.map pyStr)
  | .str s => some (s.toList.map (fun c => String.mk [c]))
  | .int _ => none

/-- The `Faction(...)` construction inside `_factions_from_json`: each field is
`d.get` with the source's default, converted by `int`/`list`; any conversion
failure aborts the whole record (the loader catches and skips). -/
def buildFaction (name : String) (d : List (String × PyVal)) : Option Faction := do
  let ranged ← pyIntConv (dGet d "ranged" (.int 0))
  let cavalry ← pyIntConv (dGet d "cavalry" (.int 0))
  let infantry ← pyIntConv (dGet d "infantry" (.int 0))
  let armor ← pyIntConv (dGet d "armor" (.int 0))
  let discipline ← pyIntConv (dGet d "discipline" (.int 0))
  let siege ← pyIntConv (dGet d "siege" (.int 0))
  let logistics ← pyIntConv (dGet d "logistics" (.int 0))
  let naval ← pyIntConv (dGet d "naval" (.int 0))
  let terrain_pref ← pyListConv (dGet d "terrain_pref" (.list [.str "plains"]))
  let palettes ← pyListConv (dGet d "palettes" (.list [.str "neutral tones"]))
  let motifs ← pyListConv (dGet d "motifs" (.list [.str "banners"]))
  some ⟨name, pyStr (dGet d "era" (.str "Custom")), ranged, cavalry, infantry, armor,
    discipline, siege, logistics, naval, terrain_pref, palettes, motifs⟩

/-- `out[name] = f` on a Python dict modelled as an association list:
replace in place if present, else append. -/
def dictInsert (out : List (String × Faction)) (n : String) (f : Faction) :
    List (String × Faction) :=
  if out.any (fun p => p.1 = n) then
    out.map (fun p => if p.1 = n then (n, f) else p)
  else out ++ [(n, f)]

/-- `_factions_from_json` on the mapping form `name -> definition dict`:
entries with a falsy name are skipped, entries whose construction raises are
skipped, the rest are inserted in order. -/
def factionsFromJson (obj : List (String × List (String × PyVal))) :
    List (String × Faction) :=
  obj.foldl
    (fun out e =>
      if e.1 = "" then out
      else
        match buildFaction e.1 e.2 with
        | some f => dictInsert out e.1 f
        | none => out)
    []

/-- The registry after `KB.update(USER_KB)`: user entries override base
entries on name collision. -/
def mergedFaction (obj : List (String × List (String × PyVal))) (n : String) :
    Option Faction :=
  ((factionsFromJson obj).lookup n).orElse (fun _ => KB.lookup n)

/-- The registry invariant the spec asserts: all eight attributes in `[0,5]`,
the three lists non-empty. -/
def validFaction (f : Faction) : Bool :=
  decide (0 ≤ f.ranged ∧ f.ranged ≤ 5) && decide (0 ≤ f.cavalry ∧ f.cavalry ≤ 5) &&
  decide (0 ≤ f.infantry ∧ f.infantry ≤ 5) && decide (0 ≤ f.armor ∧ f.armor ≤ 5) &&
  decide (0 ≤ f.discipline ∧ f.discipline ≤ 5) && decide (0 ≤ f.siege ∧ f.siege ≤ 5) &&
  decide (0 ≤ f.logistics ∧ f.logistics ≤ 5) && decide (0 ≤ f.naval ∧ f.naval ≤ 5) &&
  !f.terrain_pref.isEmpty && !f.palettes.isEmpty && !f.motifs.isEmpty

/-- A user definition is benign when every field it actually supplies
converts to an in-range value: numeric fields to an integer in `[0,5]`,
list fields to a non-empty list (fields whose conversion fails are harmless
because the whole entry is skipped). -/
def goodNumField (d : List (String × PyVal)) (k : String) : Bool :=
  match pyIntConv (dGet d k (.int 0)) with
  | some n => decide (0 ≤ n ∧ n ≤ 5)
  | none => true

/-- List-field counterpart of `goodNumField`. -/
def goodListField (d : List (String × PyVal)) (k : String) (dflt : PyVal) : Bool :=
  match pyListConv (dGet d k dflt) with
  | some l => !l.isEmpty
  | none => true

/-- All fields of one user definition are benign. -/
def goodDef (d : List (String × PyVal)) : Bool :=
  goodNumField d "ranged" && goodNumField d "cavalry" && goodNumField d "infantry" &&
  goodNumField d "armor" && goodNumField d "discipline" && goodNumField d "siege" &&
  goodNumField d "logistics" && goodNumField d "naval" &&
  goodListField d "terrain_pref" (.list [.str "plains"]) &&
  goodListField d "palettes" (.list [.str "neutral tones"]) &&
  goodListField d "motifs" (.list [.str "banners"])

/-! ### Engines -/

/-- `sanitize`: one `str.replace(w, "")` pass per banned word. -/
def sanitize (text : String) : String :=
  BANNED.foldl (fun t w => strReplace t w "") text

/-- `pick_terrain_key`. -/
def pickTerrainKey (a b : Faction) (naval_mode : Bool) (s : Nat) : String × Nat :=
  if naval_mode then ("open sea", s)
  else pyChoice (a.terrain_pref ++ b.terrain_pref ++ ["plains"]) "" s

/-- `pick_terrain_desc`. -/
def pickTerrainDesc (key : String) (weather_key : String) (s : Nat) : String × Nat :=
  let (base, s2) := pyChoice ((TERRAIN_RULES.lookup key).getD [key]) "" s
  (base ++ (weatherGet weather_key).vis, s2)

/-- `_resolve_style` (`rotation_idx` is always supplied by `build_single`). -/
def resolveStyle (style_pack : String) (rotation_idx : Nat) (s : Nat) :
    StylePack × Nat :=
  match STYLE_PACKS.lookup style_pack with
  | some p => (p, s)
  | none =>
    if style_pack.toLower = "random" ∨ style_pack.toLower = "randomized" then
      let (name, s2) := pyChoice (STYLE_PACKS.map Prod.fst) "" s
      (((STYLE_PACKS.lookup name).getD ⟨[], []⟩), s2)
    else if style_pack.toLower = "rotate" ∨ style_pack.toLower = "rotation" then
      let names := STYLE_PACKS.map Prod.fst
      (((STYLE_PACKS.lookup (names.getD (rotation_idx % names.length) "")).getD ⟨[], []⟩), s)
    else (((STYLE_PACKS.lookup "Cinematic").getD ⟨[], []⟩), s)

/-- `_resolve_style_name`. -/
def resolveStyleName (style_pack : String) (rotation_idx : Nat) (s : Nat) :
    String × Nat :=
  match STYLE_PACKS.lookup style_pack with
  | some _ => (style_pack, s)
  | none =>
    if style_pack.toLower = "random" ∨ style_pack.toLower = "randomized" then
      pyChoice (STYLE_PACKS.map Prod.fst) "" s
    else if style_pack.toLower = "rotate" ∨ style_pack.toLower = "rotation" then
      let names := STYLE_PACKS.map Prod.fst
      (names.getD (rotation_idx % names.length) "", s)
    else ("Cinematic", s)

/-- `build_prompts`: returns the 16:9 and 9:16 prompt strings.  Draws, in
source order: stylize, palette, one motif of each side, a camera phrase per
aspect ratio, and the chaos value. -/
def buildPrompts (a b : Faction) (terrain_desc style_pack : String)
    (rotation_idx : Nat) (s : Nat) : (String × String) × Nat :=
  let (style, s) := resolveStyle style_pack rotation_idx s
  let adds := String.intercalate ", " style.add
  let (stylize, s) := pyChoice style.s 0 s
  let (palette, s) := pyChoice (a.palettes ++ b.palettes) "" s
  let (ma, s) := pyChoice a.motifs "" s
  let (mb, s) := pyChoice b.motifs "" s
  let motifs := ma ++ ", " ++ mb
  let (c169, s) := pyChoice CAMERA_OPTS_169 "" s
  let (c916, s) := pyChoice CAMERA_OPTS_916 "" s
  let (chaos, s) := pyChoice ([0, 7, 12] : List ℤ) 0 s
  let head := a.name ++ " vs " ++ b.name ++ ", " ++ terrain_desc ++ ", " ++ motifs ++
    ", " ++ palette ++ ", " ++ adds ++ ", "
  let p169 := head ++ c169 ++ " --ar 16:9 " ++ midjourneyBase stylize chaos
  let p916 := head ++ c916 ++ " --ar 9:16 " ++ midjourneyBase stylize chaos
  ((p169, p916), s)

/-- `apply_preset`. -/
def applyPreset (prompt : String) (name : String) : String :=
  match PRESETS.lookup name with
  | none => prompt
  | some pr =>
    strReplace prompt "--style raw" ("--style raw, " ++ pr.1 ++ ", " ++ pr.2)

/-- `lint_prompt`: anachronism replacement guarded by an era/name allow-list,
then `sanitize`. -/
def lintPrompt (prompt : String) (a b : Faction) : String :=
  let gunpowder_ok :=
    (["Gunpowder", "Song", "Yuan", "Ottoman"].any fun x =>
      strContains (a.era ++ b.era) x) ||
    a.name == "Chinese" || b.name == "Chinese"
  let p :=
    if gunpowder_ok then prompt
    else strReplace (strReplace prompt "bombards" "catapults") "rifles" "bows"
  sanitize p

/-- `context_text`. -/
def contextText (a b : Faction) (terrain_desc scenario_key : String) (s : Nat) :
    String × Nat :=
  let scen := (scenGet scenario_key).desc
  let (ma, s) := pyChoice a.motifs "" s
  let (mb, s) := pyChoice b.motifs "" s
  let txt := "On " ++ terrain_desc ++ ", " ++ scen ++ ". " ++ a.name ++
    " deploy with " ++ ma ++ " and drilled formations; " ++ b.name ++
    " answer with " ++ mb ++ " from the " ++ b.era ++
    ". Scouts test flanks, missiles trade, then main bodies commit."
  (textwrapFill 110 (sanitize txt), s)

/-- `heuristic_score`. -/
def heuristicScore (prompt : String) : ℚ :=
  let base := (["cinematic", "motion blur", "dust", "smoke", "banners", "low-angle",
    "close-up", "dynamic", "telephoto", "sparks"].filter fun tok =>
      strContains prompt tok).length
  (base : ℚ) + (if strContains prompt "--chaos 0" then 3/10 else 0) +
    (if strContains prompt "--chaos 12" then 1/5 else 0)

/-- The weight configuration: one multiplier per attribute (the source passes
a dict keyed by exactly these eight names). -/
structure Weights where
  discipline : ℚ
  infantry : ℚ
  armor : ℚ
  logistics : ℚ
  ranged : ℚ
  cavalry : ℚ
  siege : ℚ
  naval : ℚ
deriving DecidableEq

/-- `cmd_mod` inside `outcome`: `COMMANDERS.get(cmd, {}).get(stat, 0.0)`. -/
def cmdMod (cmd stat : String) : ℚ :=
  (((COMMANDERS.lookup cmd).getD []).lookup stat).getD 0

/-- `terr_mod` inside `outcome`. -/
def terrMod (f : Faction) (terrain_key : String) : ℚ :=
  if terrain_key ∈ f.terrain_pref then 1 else 0

/-- The pre-multiplier sum of `score` inside `outcome` (the `base = (...)`
block, before terrain/weather/scenario multipliers and jitter). -/
def scoreBase (f : Faction) (cmd : String) (w : Weights) (naval_mode : Bool) : ℚ :=
  w.discipline * (f.discipline + 5 * cmdMod cmd "discipline") +
  w.infantry * f.infantry + w.armor * (f.armor + 5 * cmdMod cmd "armor") +
  w.logistics * (f.logistics + 5 * cmdMod cmd "logistics") +
  w.ranged * (f.ranged + 5 * cmdMod cmd "ranged") +
  w.cavalry * (f.cavalry + 5 * cmdMod cmd "cavalry") +
  w.siege * f.siege + w.naval * f.naval * (if naval_mode then 1 else 1/5)

/-- `score` inside `outcome`: the base sum, then terrain, weather and
scenario multipliers in source order. -/
def scoreFor (f : Faction) (cmd : String) (w : Weights) (naval_mode : Bool)
    (terrain_key scenario_key weather_key : String) : ℚ :=
  let base := scoreBase f cmd w naval_mode
  let base := base * (1 + 1/20 * terrMod f terrain_key)
  let base := base * (1 + (weatherGet weather_key).score)
  (scenGet scenario_key).mod.foldl (fun acc p => acc * (1 + p.2)) base

/-- The winner/loser selection of `outcome` (`if a_score >= b_score`). -/
structure WLsel where
  winner : Faction
  loser : Faction
  ws : ℚ
  ls : ℚ

/-- `winner, loser, ws, ls = (a, b, a_score, b_score) if a_score >= b_score
else (b, a, b_score, a_score)`. -/
def selectWL (a b : Faction) (a_score b_score : ℚ) : WLsel :=
  if b_score ≤ a_score then ⟨a, b, a_score, b_score⟩ else ⟨b, a, b_score, a_score⟩

/-- The reported margin: `ws / max(ls, 0.001)`. -/
def marginOf (ws ls : ℚ) : ℚ := ws / max ls (1/1000)

/-- The rationale list of `outcome`, in source order. -/
def outcomeReasons (sel : WLsel) (a : Faction) (terrain_key scenario_key : String)
    (cmd_a cmd_b : String) (naval_mode : Bool) : List String :=
  (if sel.loser.ranged < sel.winner.ranged then ["missile superiority set tempo"] else []) ++
  (if sel.loser.cavalry < sel.winner.cavalry then ["mobility took the flanks"] else []) ++
  (if sel.loser.discipline < sel.winner.discipline then ["cohesion held under pressure"] else []) ++
  (if sel.loser.armor < sel.winner.armor then ["protection blunted shock"] else []) ++
  (if sel.loser.logistics < sel.winner.logistics then ["supply depth sustained lines"] else []) ++
  (if sel.loser.siege < sel.winner.siege ∧ scenGet scenario_key = scenGet "siege" then
    ["engineers dictated pace"] else []) ++
  (if terrMod sel.winner terrain_key ≠ 0 ∧ terrMod sel.loser terrain_key = 0 then
    ["terrain familiarity mattered"] else []) ++
  (if naval_mode ∧ sel.loser.naval < sel.winner.naval then
    ["seamanship and ramming skill dominated"] else []) ++
  ["commander edge: " ++ (if sel.winner = a then cmd_a else cmd_b)]

/-- `outcome`: jitter both scores (two uniform draws in source order), select
the winner, build the rationale (two motif draws for the visual note), and
return `(winner name, rationale, ws, ls)`. -/
def outcome (a b : Faction) (terrain_key scenario_key weather_key : String)
    (w : Weights) (cmd_a cmd_b : String) (naval_mode : Bool) (s : Nat) :
    (String × String × ℚ × ℚ) × Nat :=
  let (ja, s) := pyUniform (-(4/5)) (4/5) s
  let a_score := scoreFor a cmd_a w naval_mode terrain_key scenario_key weather_key + ja
  let (jb, s) := pyUniform (-(4/5)) (4/5) s
  let b_score := scoreFor b cmd_b w naval_mode terrain_key scenario_key weather_key + jb
  let sel := selectWL a b a_score b_score
  let reasons := outcomeReasons sel a terrain_key scenario_key cmd_a cmd_b naval_mode
  let margin := marginOf sel.ws sel.ls
  let (mw, s) := pyChoice sel.winner.motifs "" s
  let (ml, s) := pyChoice sel.loser.motifs "" s
  let why := sel.winner.name ++ " win: " ++ String.intercalate ", " reasons ++
    ". Margin ~" ++ fmt2 margin ++ "x. Visual: emphasize " ++ mw ++ " against " ++ ml ++ "."
  ((sel.winner.name, textwrapFill 110 (sanitize why), sel.ws, sel.ls), s)

/-! ### Force and casualty estimators -/

/-- `choose_attacker`. -/
def chooseAttacker (a b : Faction) (cmd_a cmd_b : String) (s : Nat) : String × Nat :=
  let init_bonus : List (String × ℚ) :=
    [("aggressive", 1/2), ("cunning", 1/4), ("defensive", -(1/4)), ("logistician", 1/10)]
  let sa : ℚ := (a.cavalry + a.ranged + a.logistics : ℤ) + (init_bonus.lookup cmd_a).getD 0
  let sb : ℚ := (b.cavalry + b.ranged + b.logistics : ℤ) + (init_bonus.lookup cmd_b).getD 0
  if |sa - sb| < 1/2 then pyChoice [a.name, b.name] "" s
  else (if sb < sa then a.name else b.name, s)

/-- `estimate_force_sizes`: per side, `int(max(min, min(max, scale * randint)))`
with `scale = 0.6 + 0.1 * clamped logistics + uniform(-0.05, 0.05)`. -/
def estimateForceSizes (a b : Faction) (scenario_key : String) (naval_mode : Bool)
    (s : Nat) : (ℤ × ℤ) × Nat :=
  let (base_min, base_max) : ℤ × ℤ :=
    if naval_mode ∨ scenario_key = "naval" then (1500, 8000)
    else if scenario_key = "siege" then (8000, 50000)
    else (6000, 45000)
  let side_size : Faction → Nat → ℤ × Nat := fun f s =>
    let logi := max 0 (min 5 f.logistics)
    let (u, s) := pyUniform (-(1/20)) (1/20) s
    let scale : ℚ := 3/5 + 1/10 * (logi : ℚ) + u
    let (ri, s) := pyRandint base_min base_max s
    (pyInt (max (base_min : ℚ) (min (base_max : ℚ) (scale * (ri : ℚ)))), s)
  let (sa, s) := side_size a s
  let (sb, s) := side_size b s
  ((sa, sb), s)

/-- `scenario_intensity`. -/
def scenarioIntensity (scenario_key : String) : ℚ :=
  (([("open field", 11/50), ("ambush", 3/10), ("river crossing", 7/25),
     ("hill defense", 6/25), ("siege", 7/20), ("naval", 13/50)] :
    List (String × ℚ)).lookup scenario_key).getD (11/50)

/-- The arithmetic core of `casualty_breakdown`, with the two uniform draws
(`u1 ∈ [0.30, 0.45]`, `u2 ∈ [0.45, 0.60]` in the source) as arguments. -/
def casualtyBreakdown (size : ℤ) (rate u1 u2 : ℚ) : ℤ × ℤ × ℤ :=
  let killed := pyInt (rate * size * u1)
  let wounded := pyInt (rate * size * u2)
  let captured := max 0 (pyInt (rate * size) - killed - wounded)
  (killed, wounded, captured)

/-- `casualty_breakdown` with its own draws. -/
def casualtyBreakdownR (size : ℤ) (rate : ℚ) (s : Nat) : (ℤ × ℤ × ℤ) × Nat :=
  let r1 := pyUniform (3/10) (9/20) s
  let r2 := pyUniform (9/20) (3/5) r1.2
  (casualtyBreakdown size rate r1.1 r2.1, r2.2)

/-- The rate computation of `estimate_casualties` (lines from the intensity
lookup through the final clamp): returns `(winner_rate, loser_rate)`. -/
def computeRates (margin : ℚ) (scenario_key weather_key attacker winner : String) :
    ℚ × ℚ :=
  let intensity := scenarioIntensity scenario_key
  let loser_rate := min (13/20) (max (3/25) (intensity * (4/5 + 3/5 * (margin - 1))))
  let winner_rate := min (7/25) (max (3/100) (intensity * (7/20 - 1/5 * (margin - 1))))
  let winner_rate :=
    if scenario_key = "ambush" then winner_rate * (9/10)
    else if scenario_key = "river crossing" then
      if attacker = winner then winner_rate * (21/20) else winner_rate * (6/5)
    else if scenario_key = "siege" then winner_rate * (11/10)
    else winner_rate
  let loser_rate :=
    if scenario_key = "ambush" then loser_rate * (23/20)
    else if scenario_key = "river crossing" then
      if attacker = winner then loser_rate else loser_rate * (19/20)
    else if scenario_key = "siege" then loser_rate * (6/5)
    else loser_rate
  let wsc := weatherScoreD weather_key
  let winner_rate := if wsc < 0 then winner_rate * max (17/20) (1 + wsc) else winner_rate
  let loser_rate := if wsc < 0 then loser_rate * max (17/20) (1 + wsc) else loser_rate
  (max (1/100) (min (3/10) winner_rate), max (2/25) (min (13/20) loser_rate))

/-- The duration branch of `estimate_casualties`. -/
def durationStep (scenario_key : String) (s : Nat) : String × Nat :=
  if scenario_key = "ambush" then
    let r := pyRandint 2 5 s
    (toString r.1 ++ " hours", r.2)
  else if scenario_key = "naval" then
    let r := pyRandint 3 8 s
    (toString r.1 ++ " hours", r.2)
  else if scenario_key = "siege" then
    let r := pyRandint 3 21 s
    (toString r.1 ++ " days", r.2)
  else
    let r := pyRandint 6 12 s
    (toString r.1 ++ " hours", r.2)

/-- One side's block of the casualty dict. -/
structure CasSide where
  killed : ℤ
  wounded : ℤ
  captured : ℤ
  total : ℤ
deriving DecidableEq

/-- The dict returned by `estimate_casualties` (percent rates rounded to one
decimal, per-side breakdowns, and the duration string). -/
structure CasResult where
  rate_a : ℚ
  rate_b : ℚ
  cas_a : CasSide
  cas_b : CasSide
  duration : String
deriving DecidableEq

/-- `estimate_casualties` (the `terrain_key` parameter is accepted and unused,
as in the source). -/
def estimateCasualties (a b : Faction) (winner : String) (margin : ℚ)
    (scenario_key weather_key terrain_key : String) (naval_mode : Bool)
    (size_a size_b : ℤ) (attacker : String) (s : Nat) : CasResult × Nat :=
  let _ := b
  let _ := terrain_key
  let _ := naval_mode
  let rates := computeRates margin scenario_key weather_key attacker winner
  let rate_a := if winner = a.name then rates.1 else rates.2
  let rate_b := if winner = a.name then rates.2 else rates.1
  let (ca, s) := casualtyBreakdownR size_a rate_a s
  let (cb, s) := casualtyBreakdownR size_b rate_b s
  let dur := durationStep scenario_key s
  ({ rate_a := pyRound1 (100 * rate_a), rate_b := pyRound1 (100 * rate_b),
     cas_a := ⟨ca.1, ca.2.1, ca.2.2, ca.1 + ca.2.1 + ca.2.2⟩,
     cas_b := ⟨cb.1, cb.2.1, cb.2.2, cb.1 + cb.2.1 + cb.2.2⟩,
     duration := dur.1 }, dur.2)

/-- `build_deep_context`. -/
def buildDeepContext (a b : Faction) (winner attacker terrain_desc scenario_key
    weather_key : String) (casualties : CasResult) : String :=
  let vis := stripCommaSpace (weatherGet weather_key).vis
  let phases :=
    ["Opening: light troops screen and probe under " ++ vis ++ " on " ++ terrain_desc ++ "."] ++
    (if scenario_key = "ambush" ∨ scenario_key = "river crossing" then
      ["Disruption: the defender reels as the attacker forces the tempo and shapes the field."]
    else
      ["Main engagement: lines close; missiles and engines set a brutal pace before infantry clinch."]) ++
    [("Turning point: " ++
      (if winner = a.name then
        a.name ++ " gain momentum—cohesion holds while pressure builds on " ++ b.name ++ "\x27s flank."
      else
        b.name ++ " turn the tide—discipline and timing crack " ++ a.name ++ "\x27s line."))] ++
    ["Collapse: reserves commit, one wing buckles and a controlled pursuit seals the result."]
  let casStr : String → CasSide → String := fun n c =>
    n ++ ": " ++ commaFmt c.total ++ " (K:" ++ commaFmt c.killed ++ " W:" ++
      commaFmt c.wounded ++ " C:" ++ commaFmt c.captured ++ ")"
  let summ := "Casualties — " ++ casStr a.name casualties.cas_a ++ " · " ++
    casStr b.name casualties.cas_b ++ "."
  let txt := "Attacker: " ++ attacker ++ ". Conditions: " ++ scenario_key ++ ", " ++
    vis ++ ". \nPhases: " ++ String.intercalate " | " phases ++ " \nOutcome: " ++
    winner ++ " carry the field after " ++ casualties.duration ++ ". " ++ summ
  textwrapFill 110 (sanitize txt)

/-! ### Lore / commentary generator -/

/-- The named `format` arguments available to a hook template. -/
structure HookArgs where
  A : String
  B : String
  eraA : String
  eraB : String
  terrain : String
  compare : String
  twist : String

/-- `HOOK_TEMPLATES`, each entry as the function its `format` call denotes. -/
def HOOK_TEMPLATES : List (HookArgs → String) := [
  fun g => "What if " ++ g.A ++ " met " ++ g.B ++ " at full strength on " ++ g.terrain ++ "?",
  fun g => g.eraA ++ " vs " ++ g.eraB ++ ": whose banners hold when steel meets storm?",
  fun g => "As fierce as " ++ g.compare ++ ", but " ++ g.twist ++ ".",
  fun g => "Prophecy whispers and drums thunder—" ++ g.A ++ " against " ++ g.B ++ " under blazing skies."]

/-- The named `format` arguments available to a tactical template. -/
structure TacArgs where
  attacker : String
  winner : String
  loser : String
  terrain : String
  duration : String
  moment : String
  flank : String

/-- `TACTICAL_TEMPLATES`. -/
def TACTICAL_TEMPLATES : List (TacArgs → String) := [
  fun g => g.attacker ++ " seizes initiative; a sudden push at the " ++ g.flank ++ " widens into a breach.",
  fun g => "Missiles rake the line; " ++ g.winner ++ " press while " ++ g.loser ++ " staggers over " ++ g.terrain ++ ".",
  fun g => "A " ++ g.moment ++ " turns the field; discipline and timing decide it in " ++ g.duration ++ "."]

/-- `FAN_TEMPLATES`. -/
def FAN_TEMPLATES : List String := [
  "Does discipline beat zeal? Your call.",
  "Tap left for cavalry, right for archers.",
  "Who carries the banners at dusk? Vote below.",
  "Is logistics the real hero? Decide the victor."]

/-- `COMPARE_POOL`. -/
def COMPARE_POOL : List String :=
  ["Yarmouk", "Cannae", "Hattin", "Ain Jalut", "Thermopylae", "Hastings"]

/-- `TWISTS`. -/
def TWISTS : List String := [
  "brother versus brother", "under twin comets", "in a dust‑storm crossing",
  "with drums echoing over dunes", "as night falls early", "with reserves late to the field"]

/-- `MOMENTS`. -/
def MOMENTS : List String := ["flank charge", "shield‑wall collapse", "arrow storm lull",
  "cavalry counter‑thrust", "river ford panic"]

/-- `FLANKS`. -/
def FLANKS : List String := ["left", "right", "center", "river bank", "ridge"]

/-- `QUOTES_PD` as (text, author). -/
def QUOTES_PD : List (String × String) := [
  ("In the midst of chaos, there is also opportunity.", "Sun Tzu"),
  ("Strategy without tactics is the slowest route to victory. Tactics without strategy is the noise before defeat.", "Sun Tzu"),
  ("The past resembles the future more than one drop of water resembles another.", "Ibn Khaldun"),
  ("Great deeds are usually wrought at great risks.", "Herodotus")]

/-- The dict returned by `generate_lore_snippets`. -/
structure LoreResult where
  hook : String
  tacticalBeat : String
  fanPrompt : String
  voScript : String
  quote : String
  tone : String
deriving DecidableEq

/-- `generate_lore_snippets`.  It begins by reseeding the shared generator to
`day_idx * 100003`, so its draws depend on `day_idx` alone.  Draw order
follows Python evaluation order: hook template, compare, twist; tactical
template, moment, flank; fan template; the conditional mixed-POV choice; the
conditional quote choice. -/
def generateLoreSnippets (a b : Faction) (winner attacker scenario_key weather_key
    terrain_desc analysis_txt : String) (casualties : CasResult) (day_idx : Nat)
    (pov : String) (s0 : Nat) : LoreResult × Nat :=
  let _ := scenario_key
  let _ := weather_key
  let _ := analysis_txt
  let s := pySeed (day_idx * 100003)
  let terrain_short := firstCommaField terrain_desc
  let (htmpl, s) := pyChoice HOOK_TEMPLATES (fun _ => "") s
  let (compare, s) := pyChoice COMPARE_POOL "" s
  let (twist, s) := pyChoice TWISTS "" s
  let hook := htmpl ⟨a.name, b.name, a.era, b.era, terrain_short, compare, twist⟩
  let loser := if winner = a.name then b.name else a.name
  let (ttmpl, s) := pyChoice TACTICAL_TEMPLATES (fun _ => "") s
  let (moment, s) := pyChoice MOMENTS "" s
  let (flank, s) := pyChoice FLANKS "" s
  let tac := ttmpl ⟨attacker, winner, loser, terrain_short, casualties.duration, moment, flank⟩
  let (fan, s) := pyChoice FAN_TEMPLATES "" s
  let tone := (["mythic", "tactical", "cinematic"].getD (day_idx % 3) "")
  let hook := if tone = "mythic" then hook ++ " Omens blaze overhead; each side claims mandate." else hook
  let tac := if tone = "cinematic" then tac ++ " Dust turns to sparks in the gale; banners whip like lightning." else tac
  let hook := if day_idx % 5 = 0 then "I was there—" ++ lowerFirst hook else hook
  let fan := if day_idx % 7 = 0 then fan ++ " Had that charge landed, would the map be different?" else fan
  let pov_mode := pov.toLower
  let (pov_mode, s) :=
    if pov_mode = "mixed" then
      if day_idx % 2 = 0 then pyChoice ["soldier", "commander", "bard", "none"] "" s
      else ("none", s)
    else (pov_mode, s)
  let (hook, tac) :=
    if pov_mode = "soldier" then
      ("I " ++ lowerFirst hook, "From the ranks, " ++ lowerFirst tac)
    else if pov_mode = "commander" then
      ("From my saddle I considered this: " ++ lowerFirst hook, "I commit reserves as " ++ lowerFirst tac)
    else if pov_mode = "bard" then
      ("Hear now: " ++ hook, "Let the record sing—" ++ lowerFirst tac)
    else (hook, tac)
  let vo := hook ++ " " ++ tac ++ " " ++ fan
  let (quote, s) :=
    if day_idx % 3 = 1 then
      let (q, s) := pyChoice QUOTES_PD ("", "") s
      (sanitize ("\"" ++ q.1 ++ "\" — " ++ q.2), s)
    else ("", s)
  (⟨sanitize hook, sanitize tac, sanitize fan, sanitize vo, quote, tone⟩, s)

/-- `generate_lore_variants` (the orchestrator passes `count = 3`). -/
def generateLoreVariants (a b : Faction) (winner attacker scenario_key weather_key
    terrain_desc analysis_txt : String) (casualties : CasResult) (day_idx : Nat)
    (count : Nat) (pov : String) (s0 : Nat) : List LoreResult × Nat :=
  (List.range (max 1 count)).foldl
    (fun acc i =>
      let (vs, s) := acc
      let (v, s) := generateLoreSnippets a b winner attacker scenario_key weather_key
        terrain_desc analysis_txt casualties (day_idx * 10 + i) pov s
      (vs ++ [v], s))
    ([], s0)

/-- The dict returned by `generate_alt_timeline`: the flipped-winner lore plus
the two `Alt` fields read by `build_single`. -/
structure AltResult where
  lore : LoreResult
  altWinner : String
  altVO : String
deriving DecidableEq

/-- `generate_alt_timeline`. -/
def generateAltTimeline (a b : Faction) (actual_winner attacker scenario_key
    weather_key terrain_desc analysis_txt : String) (casualties : CasResult)
    (day_idx : Nat) (s0 : Nat) : AltResult × Nat :=
  let alt_winner := if actual_winner = a.name then b.name else a.name
  let (lore, s) := generateLoreSnippets a b alt_winner attacker scenario_key weather_key
    terrain_desc analysis_txt casualties (day_idx + 77) "mixed" s0
  (⟨lore, alt_winner, lore.voScript ++ " (alt timeline)"⟩, s)

/-- The dict returned by `build_poll`. -/
structure PollResult where
  q : String
  opt1 : String
  opt2 : String
  opt3 : String
deriving DecidableEq

/-- `build_poll`. -/
def buildPoll (a b : Faction) (scenario_key : String) : PollResult :=
  let _ := a
  let _ := b
  let base_q := (([("open field", "What wins today?"),
    ("ambush", "Surprise or discipline—who prevails?"),
    ("river crossing", "Hold the ford or force it?"),
    ("hill defense", "Height or momentum?"),
    ("siege", "Engines or endurance?"),
    ("naval", "Rams or missiles at sea?")] : List (String × String)).lookup
      scenario_key).getD "What wins this battle?"
  let opt3 := if scenario_key = "river crossing" ∨ scenario_key = "naval" then "Missiles"
    else "Archers"
  ⟨base_q, "Discipline", "Cavalry", opt3⟩

/-! ### The orchestrated single-item builder (`build_single`) -/

/-- The output dict of `build_single`, one Lean field per dict key (in source
order).  `scoreA`/`scoreB` reproduce the source's
`ws if winner==a else ls` / `ws if winner==b else ls`, where `winner` is a
string and `a`, `b` are `Faction` records, so both comparisons are always
`False` in Python and both fields receive `ls`. -/
structure BattleRecord where
  day : String
  matchup : String
  mj169 : String
  mj916 : String
  context : String
  analysis : String
  whoWon : String
  whyTheyWon : String
  attacker : String
  duration : String
  casualtiesA : ℤ
  casualtiesB : ℤ
  casualtyRateA : ℚ
  casualtyRateB : ℚ
  loreHook : String
  tacticalBeat : String
  fanPrompt : String
  voScript : String
  tone : String
  quote : String
  styleUsed : String
  hookA : String
  hookB : String
  hookC : String
  voA : String
  voB : String
  voC : String
  altWinner : String
  altVO : String
  pollQ : String
  pollOpt1 : String
  pollOpt2 : String
  pollOpt3 : String
  killedA : ℤ
  woundedA : ℤ
  capturedA : ℤ
  killedB : ℤ
  woundedB : ℤ
  capturedB : ℤ
  caption : String
  seed : Nat
  scoreA : ℚ
  scoreB : ℚ
deriving DecidableEq

/-- The caption pool indexed by `(seed_base + idx) % 4`. -/
def captionPool : List String := [
  "Who wins? Vote below. #HypotheticalBattles",
  "Your call. Tactics > luck. Vote.",
  "Decide it in the comments.",
  "Lore or logistics—what wins?"]

/-- `build_single`.  Its first action is `random.seed(seed_base + idx)`, which
overwrites the incoming generator state; every later step is a deterministic
function of the arguments and the threaded state.  The point-of-view mode and
alt-timeline toggle, which the source reads from the UI session state, are
passed as the explicit arguments `pov` and `alt_enable` (the claims fix
them). -/
def buildSingle (a b : Faction) (seed_base idx : Nat) (style_pack scenario_key
    weather_key : String) (w : Weights) (cmd_a cmd_b : String)
    (naval_mode : Bool) (pov : String) (alt_enable : Bool) (s0 : Nat) :
    BattleRecord × Nat :=
  let s := pySeed (seed_base + idx)
  let (tkey, s) := pickTerrainKey a b naval_mode s
  let (tdesc, s) := pickTerrainDesc tkey weather_key s
  let (pp1, s) := buildPrompts a b tdesc style_pack idx s
  let (pp2, s) := buildPrompts a b tdesc style_pack (idx + 1) s
  let p169_1 := applyPreset pp1.1 a.name
  let p916_1 := applyPreset pp1.2 b.name
  let p169_2 := applyPreset pp2.1 a.name
  let p916_2 := applyPreset pp2.2 b.name
  let p169_1 := lintPrompt p169_1 a b
  let p916_1 := lintPrompt p916_1 a b
  let p169_2 := lintPrompt p169_2 a b
  let p916_2 := lintPrompt p916_2 a b
  let p169 := if heuristicScore p169_2 ≤ heuristicScore p169_1 then p169_1 else p169_2
  let p916 := if heuristicScore p916_2 ≤ heuristicScore p916_1 then p916_1 else p916_2
  let (ctx, s) := contextText a b tdesc scenario_key s
  let (outc, s) := outcome a b tkey scenario_key weather_key w cmd_a cmd_b naval_mode s
  let winner := outc.1
  let why := outc.2.1
  let ws := outc.2.2.1
  let ls := outc.2.2.2
  let (attacker, s) := chooseAttacker a b cmd_a cmd_b s
  let margin := if ws ≠ 0 ∧ ls ≠ 0 then marginOf ws ls else 1
  let (sizes, s) := estimateForceSizes a b scenario_key naval_mode s
  let (cas, s) := estimateCasualties a b winner margin scenario_key weather_key tkey
    naval_mode sizes.1 sizes.2 attacker s
  let deep := buildDeepContext a b winner attacker tdesc scenario_key weather_key cas
  let (lore, s) := generateLoreSnippets a b winner attacker scenario_key weather_key
    tdesc deep cas idx pov s
  let (lore_variants, s) := generateLoreVariants a b winner attacker scenario_key
    weather_key tdesc deep cas idx 3 pov s
  let (altW, altV, s) :=
    if alt_enable then
      let (alt, s) := generateAltTimeline a b winner attacker scenario_key weather_key
        tdesc deep cas idx s
      (alt.altWinner, alt.altVO, s)
    else ("", "", s)
  let (style_used, s) := resolveStyleName style_pack idx s
  let poll := buildPoll a b scenario_key
  let caption := captionPool.getD ((seed_base + idx) % 4) ""
  let v0 := lore_variants.getD 0 ⟨"", "", "", "", "", ""⟩
  let v1 := lore_variants.getD 1 ⟨"", "", "", "", "", ""⟩
  let v2 := lore_variants.getD 2 ⟨"", "", "", "", "", ""⟩
  ({ day := "Day " ++ toString (idx + 1),
     matchup := a.name ++ " vs " ++ b.name,
     mj169 := p169, mj916 := p916,
     context := ctx, analysis := deep,
     whoWon := winner, whyTheyWon := why,
     attacker := attacker, duration := cas.duration,
     casualtiesA := cas.cas_a.total, casualtiesB := cas.cas_b.total,
     casualtyRateA := cas.rate_a, casualtyRateB := cas.rate_b,
     loreHook := lore.hook, tacticalBeat := lore.tacticalBeat,
     fanPrompt := lore.fanPrompt, voScript := lore.voScript,
     tone := lore.tone, quote := lore.quote, styleUsed := style_used,
     hookA := v0.hook, hookB := v1.hook, hookC := v2.hook,
     voA := v0.voScript, voB := v1.voScript, voC := v2.voScript,
     altWinner := altW, altVO := altV,
     pollQ := poll.q, pollOpt1 := poll.opt1, pollOpt2 := poll.opt2,
     pollOpt3 := poll.opt3,
     killedA := cas.cas_a.killed, woundedA := cas.cas_a.wounded,
     capturedA := cas.cas_a.captured,
     killedB := cas.cas_b.killed, woundedB := cas.cas_b.wounded,
     capturedB := cas.cas_b.captured,
     caption := caption, seed := seed_base + idx,
     scoreA := ls, scoreB := ls }, s)

/-! ### Tournament / Elo -/

/-- `expected_score` (the logistic expectation; `10 ** x` on floats is modelled
by the real power function). -/
noncomputable def expected_score (ra rb : ℝ) : ℝ :=
  1 / (1 + (10 : ℝ) ^ ((rb - ra) / 400))

/-- `update_elo` with its default `k = 24` made explicit. -/
noncomputable def update_elo (ra rb sa k : ℝ) : ℝ × ℝ :=
  let ea := expected_score ra rb
  (ra + k * (sa - ea), rb + k * ((1 - sa) - (1 - ea)))

/-! ### Auxiliary definitions used by the theorems -/

/-- Registry access with an inert fallback (used to name concrete base
factions in witnesses). -/
def kbGet (n : String) : Faction :=
  (KB.lookup n).getD ⟨n, "", 0, 0, 0, 0, 0, 0, 0, 0, [], [], []⟩

/-- `get_balanced_weights` from the source. -/
def balancedWeights : Weights :=
  ⟨7/5, 13/10, 11/10, 6/5, 23/20, 11/10, 9/10, 1⟩

/-- The spec's scoring sentence, written as it is stated (for comparison with
the source's `scoreBase`): a sum over attributes of
`weight × (attribute + 5 × commander bonus)` in which only siege and naval
lack the bonus term — so infantry carries one — and the naval term is scaled
by 1.0 in naval mode and 0.2 otherwise. -/
def specScoreBase (f : Faction) (cmd : String) (w : Weights) (naval_mode : Bool) : ℚ :=
  w.ranged * (f.ranged + 5 * cmdMod cmd "ranged") +
  w.cavalry * (f.cavalry + 5 * cmdMod cmd "cavalry") +
  w.infantry * (f.infantry + 5 * cmdMod cmd "infantry") +
  w.armor * (f.armor + 5 * cmdMod cmd "armor") +
  w.discipline * (f.discipline + 5 * cmdMod cmd "discipline") +
  w.logistics * (f.logistics + 5 * cmdMod cmd "logistics") +
  w.siege * f.siege + w.naval * f.naval * (if naval_mode then 1 else 1/5)

/-- No commander trait in the `COMMANDERS` table defines an `infantry`
bonus, so the commander modifier on infantry is `0` for every trait name. -/
theorem cmdMod_infantry (cmd : String) : cmdMod cmd "infantry" = 0 := by
  by_cases h1 : cmd = "aggressive"
  · subst h1; rfl
  by_cases h2 : cmd = "defensive"
  · subst h2; rfl
  by_cases h3 : cmd = "cunning"
  · subst h3; rfl
  by_cases h4 : cmd = "logistician"
  · subst h4; rfl
  have e1 : (cmd == "aggressive") = false := beq_eq_false_iff_ne.mpr h1
  have e2 : (cmd == "defensive") = false := beq_eq_false_iff_ne.mpr h2
  have e3 : (cmd == "cunning") = false := beq_eq_false_iff_ne.mpr h3
  have e4 : (cmd == "logistician") = false := beq_eq_false_iff_ne.mpr h4
  unfold cmdMod COMMANDERS
  simp [List.lookup, e1, e2, e3, e4]

/-! ### Claims -/

/-- C10: `update_elo` returns a pair whose sum equals the sum of the input
ratings, for all ratings, actual score and K factor — the Elo total is
conserved by every match update (so a round-robin starting every faction at
1500 keeps the sum at 1500 × number of factions). -/
theorem update_elo_conserves_sum (ra rb sa k : ℝ) :
    (update_elo ra rb sa k).1 + (update_elo ra rb sa k).2 = ra + rb := by
  simp only [update_elo]
  ring

/-- C5: for every margin, scenario key, weather key, attacker and winner, the
final clamped rates computed by `estimate_casualties` satisfy
winner rate ∈ [0.01, 0.30] and loser rate ∈ [0.08, 0.65]. -/
theorem computeRates_bounds (margin : ℚ)
    (scenario_key weather_key attacker winner : String) :
    1/100 ≤ (computeRates margin scenario_key weather_key attacker winner).1 ∧
    (computeRates margin scenario_key weather_key attacker winner).1 ≤ 3/10 ∧
    2/25 ≤ (computeRates margin scenario_key weather_key attacker winner).2 ∧
    (computeRates margin scenario_key weather_key attacker winner).2 ≤ 13/20 := by
  unfold computeRates
  refine ⟨le_max_left _ _, max_le (by norm_num) (min_le_left _ _),
    le_max_left _ _, max_le (by norm_num) (min_le_left _ _)⟩

/-- C3: the pre-jitter, pre-multiplier base score computed inside `outcome`
equals the spec's formula `Σ weight × (attr + 5 × commander bonus)` in which
only siege and naval lack the bonus term (infantry's bonus term is present
but always zero, since no trait in `COMMANDERS` carries an infantry bonus)
and the naval term is scaled by 1.0 / 0.2, for every faction, trait name,
positive weights and naval flag. -/
theorem scoreBase_eq_specScoreBase (f : Faction) (cmd : String) (w : Weights)
    (naval_mode : Bool)
    (hd : 0 < w.discipline) (hi : 0 < w.infantry) (ha : 0 < w.armor)
    (hl : 0 < w.logistics) (hr : 0 < w.ranged) (hc : 0 < w.cavalry)
    (hs : 0 < w.siege) (hn : 0 < w.naval) :
    scoreBase f cmd w naval_mode = specScoreBase f cmd w naval_mode := by
  unfold scoreBase specScoreBase
  rw [cmdMod_infantry]
  ring

/-- Witness for C3 at Romans, trait `"aggressive"`, the source's balanced
weights, land mode. -/
theorem scoreBase_eq_specScoreBase_witness :
    (0 < balancedWeights.discipline ∧ 0 < balancedWeights.infantry ∧
     0 < balancedWeights.armor ∧ 0 < balancedWeights.logistics ∧
     0 < balancedWeights.ranged ∧ 0 < balancedWeights.cavalry ∧
     0 < balancedWeights.siege ∧ 0 < balancedWeights.naval) ∧
    scoreBase (kbGet "Romans") "aggressive" balancedWeights false =
      specScoreBase (kbGet "Romans") "aggressive" balancedWeights false :=
  ⟨by refine ⟨?_, ?_, ?_, ?_, ?_, ?_, ?_, ?_⟩ <;> norm_num [balancedWeights],
    scoreBase_eq_specScoreBase (kbGet "Romans") "aggressive" balancedWeights false
      (by norm_num [balancedWeights]) (by norm_num [balancedWeights])
      (by norm_num [balancedWeights]) (by norm_num [balancedWeights])
      (by norm_num [balancedWeights]) (by norm_num [balancedWeights])
      (by norm_num [balancedWeights]) (by norm_num [balancedWeights])⟩

/-- C1: `build_single` is deterministic — its first action reseeds the shared
generator to `seed_base + idx`, discarding the incoming generator state, and
every later step is a function of the arguments and the threaded state alone;
hence two calls with identical arguments (any two prior generator states, in
particular the state left behind by the first call) produce records equal in
every field, for every pair of factions, base seed, index, and fixed
configuration (style pack, scenario, weather, weights, commander traits,
naval flag, point-of-view mode and alt-timeline toggle). -/
theorem buildSingle_deterministic (a b : Faction) (seed_base idx : Nat)
    (style_pack scenario_key weather_key : String) (w : Weights)
    (cmd_a cmd_b : String) (naval_mode : Bool) (pov : String) (alt_enable : Bool)
    (s1 s2 : Nat) :
    (buildSingle a b seed_base idx style_pack scenario_key weather_key w
      cmd_a cmd_b naval_mode pov alt_enable s1).1 =
    (buildSingle a b seed_base idx style_pack scenario_key weather_key w
      cmd_a cmd_b naval_mode pov alt_enable s2).1 := rfl

/-- C4 (counterexample): at `size = 1000`, `rate = 1/2`, draws `u1 = 0.45` and
`u2 = 0.60` (both inside the source's uniform ranges), `casualty_breakdown`
returns killed 225, wounded 300, captured 0, whose sum 525 differs from
`int(rate * size) = 500` — the claimed identity
`killed + wounded + captured = int(rate × size)` fails. -/
theorem casualtyBreakdown_sum_counterexample :
    casualtyBreakdown 1000 (1/2) (9/20) (3/5) = (225, 300, 0) ∧
    pyInt ((1/2 : ℚ) * (1000 : ℤ)) = 500 ∧
    ((3/10 : ℚ) ≤ 9/20 ∧ (9/20 : ℚ) ≤ 9/20 ∧ (9/20 : ℚ) ≤ 3/5 ∧ (3/5 : ℚ) ≤ 3/5) ∧
    (225 + 300 + 0 : ℤ) ≠ 500 := by
  refine ⟨?_, ?_, ⟨by norm_num, by norm_num, by norm_num, by norm_num⟩, by decide⟩
  · unfold casualtyBreakdown
    have ha : (1/2 : ℚ) * (1000 : ℤ) * (9/20) = ((225 : ℤ) : ℚ) := by norm_num
    have hb : (1/2 : ℚ) * (1000 : ℤ) * (3/5) = ((300 : ℤ) : ℚ) := by norm_num
    have hc : (1/2 : ℚ) * (1000 : ℤ) = ((500 : ℤ) : ℚ) := by norm_num
    rw [ha, hb, hc, pyInt_intCast, pyInt_intCast, pyInt_intCast]
    dsimp only
    rw [show max (0 : ℤ) (500 - 225 - 300) = 0 by decide]
  · rw [show ((1/2 : ℚ) * (1000 : ℤ)) = ((500 : ℤ) : ℚ) by norm_num, pyInt_intCast]

/-- C4 (amended): for every size ≥ 0, rate, and draws in the source's uniform
ranges, `casualty_breakdown` returns captured ≥ 0 and
`killed + wounded + captured = max (int(rate × size)) (killed + wounded)`;
the sum equals `int(rate × size)` exactly when the two floored draws do not
already exceed it (which the draw upper bounds 0.45 + 0.60 > 1 permit). -/
theorem casualtyBreakdown_sum_eq_max (size : ℤ) (rate u1 u2 : ℚ)
    (hsize : 0 ≤ size) (h1a : 3/10 ≤ u1) (h1b : u1 ≤ 9/20)
    (h2a : 9/20 ≤ u2) (h2b : u2 ≤ 3/5) :
    0 ≤ (casualtyBreakdown size rate u1 u2).2.2 ∧
    (casualtyBreakdown size rate u1 u2).1 + (casualtyBreakdown size rate u1 u2).2.1 +
      (casualtyBreakdown size rate u1 u2).2.2 =
    max (pyInt (rate * size))
      ((casualtyBreakdown size rate u1 u2).1 + (casualtyBreakdown size rate u1 u2).2.1) := by
  unfold casualtyBreakdown
  dsimp only
  omega

/-- Witness for C4's amended theorem at `size = 1000`, `rate = 1/4`,
`u1 = 0.4`, `u2 = 0.5`. -/
theorem casualtyBreakdown_sum_eq_max_witness :
    ((0 : ℤ) ≤ 1000 ∧ (3/10 : ℚ) ≤ 2/5 ∧ (2/5 : ℚ) ≤ 9/20 ∧
      (9/20 : ℚ) ≤ 1/2 ∧ (1/2 : ℚ) ≤ 3/5) ∧
    (0 ≤ (casualtyBreakdown 1000 (1/4) (2/5) (1/2)).2.2 ∧
     (casualtyBreakdown 1000 (1/4) (2/5) (1/2)).1 +
       (casualtyBreakdown 1000 (1/4) (2/5) (1/2)).2.1 +
       (casualtyBreakdown 1000 (1/4) (2/5) (1/2)).2.2 =
     max (pyInt ((1/4) * (1000 : ℤ)))
       ((casualtyBreakdown 1000 (1/4) (2/5) (1/2)).1 +
        (casualtyBreakdown 1000 (1/4) (2/5) (1/2)).2.1)) :=
  ⟨⟨by decide, by norm_num, by norm_num, by norm_num, by norm_num⟩,
    casualtyBreakdown_sum_eq_max 1000 (1/4) (2/5) (1/2) (by decide)
      (by norm_num) (by norm_num) (by norm_num) (by norm_num)⟩

/-- C6 (counterexample): the winner selection with all-zero weights (the claim
quantifies over every weight assignment), two all-zero custom factions (what
the loader builds from an empty user definition), and legal jitter values
`0.0005` and `0` yields `ws = 0.0005 ≥ ls = 0`, yet the reported margin
`ws / max(ls, 0.001) = 0.5` is below 1 — "margin ≥ 1 whenever ws ≥ ls"
fails when the winning score is below the 0.001 floor. -/
theorem margin_ge_one_counterexample :
    ((-(4/5) : ℚ) ≤ 1/2000 ∧ (1/2000 : ℚ) ≤ 4/5) ∧
    (selectWL ⟨"Custom A", "Custom", 0, 0, 0, 0, 0, 0, 0, 0, ["plains"], ["neutral tones"], ["banners"]⟩
      ⟨"Custom B", "Custom", 0, 0, 0, 0, 0, 0, 0, 0, ["plains"], ["neutral tones"], ["banners"]⟩
      (scoreFor ⟨"Custom A", "Custom", 0, 0, 0, 0, 0, 0, 0, 0, ["plains"], ["neutral tones"], ["banners"]⟩
        "aggressive" ⟨0, 0, 0, 0, 0, 0, 0, 0⟩ false "plains" "open field" "clear" + 1/2000)
      (scoreFor ⟨"Custom B", "Custom", 0, 0, 0, 0, 0, 0, 0, 0, ["plains"], ["neutral tones"], ["banners"]⟩
        "defensive" ⟨0, 0, 0, 0, 0, 0, 0, 0⟩ false "plains" "open field" "clear" + 0)).ls ≤
    (selectWL ⟨"Custom A", "Custom", 0, 0, 0, 0, 0, 0, 0, 0, ["plains"], ["neutral tones"], ["banners"]⟩
      ⟨"Custom B", "Custom", 0, 0, 0, 0, 0, 0, 0, 0, ["plains"], ["neutral tones"], ["banners"]⟩
      (scoreFor ⟨"Custom A", "Custom", 0, 0, 0, 0, 0, 0, 0, 0, ["plains"], ["neutral tones"], ["banners"]⟩
        "aggressive" ⟨0, 0, 0, 0, 0, 0, 0, 0⟩ false "plains" "open field" "clear" + 1/2000)
      (scoreFor ⟨"Custom B", "Custom", 0, 0, 0, 0, 0, 0, 0, 0, ["plains"], ["neutral tones"], ["banners"]⟩
        "defensive" ⟨0, 0, 0, 0, 0, 0, 0, 0⟩ false "plains" "open field" "clear" + 0)).ws ∧
    marginOf
      (selectWL ⟨"Custom A", "Custom", 0, 0, 0, 0, 0, 0, 0, 0, ["plains"], ["neutral tones"], ["banners"]⟩
        ⟨"Custom B", "Custom", 0, 0, 0, 0, 0, 0, 0, 0, ["plains"], ["neutral tones"], ["banners"]⟩
        (scoreFor ⟨"Custom A", "Custom", 0, 0, 0, 0, 0, 0, 0, 0, ["plains"], ["neutral tones"], ["banners"]⟩
          "aggressive" ⟨0, 0, 0, 0, 0, 0, 0, 0⟩ false "plains" "open field" "clear" + 1/2000)
        (scoreFor ⟨"Custom B", "Custom", 0, 0, 0, 0, 0, 0, 0, 0, ["plains"], ["neutral tones"], ["banners"]⟩
          "defensive" ⟨0, 0, 0, 0, 0, 0, 0, 0⟩ false "plains" "open field" "clear" + 0)).ws
      (selectWL ⟨"Custom A", "Custom", 0, 0, 0, 0, 0, 0, 0, 0, ["plains"], ["neutral tones"], ["banners"]⟩
        ⟨"Custom B", "Custom", 0, 0, 0, 0, 0, 0, 0, 0, ["plains"], ["neutral tones"], ["banners"]⟩
        (scoreFor ⟨"Custom A", "Custom", 0, 0, 0, 0, 0, 0, 0, 0, ["plains"], ["neutral tones"], ["banners"]⟩
          "aggressive" ⟨0, 0, 0, 0, 0, 0, 0, 0⟩ false "plains" "open field" "clear" + 1/2000)
        (scoreFor ⟨"Custom B", "Custom", 0, 0, 0, 0, 0, 0, 0, 0, ["plains"], ["neutral tones"], ["banners"]⟩
          "defensive" ⟨0, 0, 0, 0, 0, 0, 0, 0⟩ false "plains" "open field" "clear" + 0)).ls < 1 := by
  have hz : ∀ (f : Faction) (cmd : String),
      scoreFor f cmd ⟨0, 0, 0, 0, 0, 0, 0, 0⟩ false "plains" "open field" "clear" = 0 := by
    intro f cmd
    unfold scoreFor scoreBase
    norm_num [scenGet, weatherGet, SCENARIOS, WEATHER, List.lookup]
  rw [hz, hz]
  norm_num [selectWL, marginOf]

/-- C6 (amended): the winner selection always yields `ws ≥ ls`, and whenever
additionally `ws ≥ 0.001` (true in particular whenever `ls ≥ 0.001`), the
reported margin `ws / max(ls, 0.001)` is at least 1; the extra floor
hypothesis is exactly what the counterexample shows is needed. -/
theorem selectWL_margin_ge_one (a b : Faction) (a_score b_score : ℚ)
    (h : 1/1000 ≤ (selectWL a b a_score b_score).ws) :
    (selectWL a b a_score b_score).ls ≤ (selectWL a b a_score b_score).ws ∧
    1 ≤ marginOf (selectWL a b a_score b_score).ws (selectWL a b a_score b_score).ls := by
  have hpos : ∀ x : ℚ, (0 : ℚ) < max x (1/1000) :=
    fun x => lt_of_lt_of_le (by norm_num) (le_max_right x (1/1000))
  by_cases hab : b_score ≤ a_score
  · rw [selectWL, if_pos hab] at h ⊢
    dsimp only at h ⊢
    exact ⟨hab, (one_le_div (hpos _)).mpr (max_le hab h)⟩
  · rw [selectWL, if_neg hab] at h ⊢
    dsimp only at h ⊢
    exact ⟨le_of_not_le hab,
      (one_le_div (hpos _)).mpr (max_le (le_of_not_le hab) h)⟩

/-- Witness for C6's amended theorem at Romans vs Samurai with scores 20
and 10. -/
theorem selectWL_margin_ge_one_witness :
    (1/1000 ≤ (selectWL (kbGet "Romans") (kbGet "Samurai") 20 10).ws) ∧
    ((selectWL (kbGet "Romans") (kbGet "Samurai") 20 10).ls ≤
      (selectWL (kbGet "Romans") (kbGet "Samurai") 20 10).ws ∧
     1 ≤ marginOf (selectWL (kbGet "Romans") (kbGet "Samurai") 20 10).ws
       (selectWL (kbGet "Romans") (kbGet "Samurai") 20 10).ls) :=
  ⟨by norm_num [selectWL],
    selectWL_margin_ge_one (kbGet "Romans") (kbGet "Samurai") 20 10
      (by norm_num [selectWL])⟩

/-- The per-scenario hour range of the duration branch (ambush 2–5, naval
3–8, anything else that is not a siege 6–12). -/
def durationCat (key : String) : ℤ × ℤ :=
  if key = "ambush" then (2, 5) else if key = "naval" then (3, 8) else (6, 12)

/-- `random.randint a b` stays within `[a, b]` whenever `a ≤ b`. -/
theorem pyRandint_bounds (a b : ℤ) (s : Nat) (hab : a ≤ b) :
    a ≤ (pyRandint a b s).1 ∧ (pyRandint a b s).1 ≤ b := by
  unfold pyRandint
  dsimp only
  have hpos : (0 : ℤ) < b - a + 1 := by omega
  have h1 : 0 ≤ ((randNat s).1 : ℤ) % (b - a + 1) :=
    Int.emod_nonneg _ (by omega)
  have h2 : ((randNat s).1 : ℤ) % (b - a + 1) < b - a + 1 :=
    Int.emod_lt_of_pos _ hpos
  omega

/-- On any non-siege scenario, the duration branch yields
`toString n ++ " hours"` with `n` in the scenario's category range. -/
theorem durationStep_hours (key : String) (s : Nat) (hk : key ≠ "siege") :
    ∃ n : ℤ, (durationStep key s).1 = toString n ++ " hours" ∧
      (durationCat key).1 ≤ n ∧ n ≤ (durationCat key).2 := by
  unfold durationStep durationCat
  by_cases h1 : key = "ambush"
  · simp only [if_pos h1]
    exact ⟨(pyRandint 2 5 s).1, rfl, (pyRandint_bounds 2 5 s (by decide)).1,
      (pyRandint_bounds 2 5 s (by decide)).2⟩
  by_cases h2 : key = "naval"
  · simp only [if_neg h1, if_pos h2]
    exact ⟨(pyRandint 3 8 s).1, rfl, (pyRandint_bounds 3 8 s (by decide)).1,
      (pyRandint_bounds 3 8 s (by decide)).2⟩
  · simp only [if_neg h1, if_neg h2, if_neg hk]
    exact ⟨(pyRandint 6 12 s).1, rfl, (pyRandint_bounds 6 12 s (by decide)).1,
      (pyRandint_bounds 6 12 s (by decide)).2⟩

/-- C8 (amended): for every non-siege scenario key, the duration string
produced by `estimate_casualties` has the form `"<int> hours"` — a single
integer, not the claimed `"<int>-<int> hours"` range — with the integer drawn
from the scenario's category (ambush 2–5, naval 3–8, else 6–12). -/
theorem estimateCasualties_duration_hours (a b : Faction) (winner : String)
    (margin : ℚ) (scenario_key weather_key terrain_key : String)
    (naval_mode : Bool) (size_a size_b : ℤ) (attacker : String) (s : Nat)
    (hk : scenario_key ≠ "siege") :
    ∃ n : ℤ,
      (estimateCasualties a b winner margin scenario_key weather_key terrain_key
        naval_mode size_a size_b attacker s).1.duration = toString n ++ " hours" ∧
      (durationCat scenario_key).1 ≤ n ∧ n ≤ (durationCat scenario_key).2 := by
  have hred : ∃ s', (estimateCasualties a b winner margin scenario_key weather_key
      terrain_key naval_mode size_a size_b attacker s).1.duration =
      (durationStep scenario_key s').1 := ⟨_, rfl⟩
  obtain ⟨s', hs'⟩ := hred
  rw [hs']
  exact durationStep_hours scenario_key s' hk

/-- Witness for C8's amended theorem: an ambush between Romans and Samurai. -/
theorem estimateCasualties_duration_hours_witness :
    ("ambush" ≠ "siege") ∧
    (∃ n : ℤ,
      (estimateCasualties (kbGet "Romans") (kbGet "Samurai") "Romans" (6/5)
        "ambush" "clear" "plains" false 10000 10000 "Romans" 0).1.duration =
        toString n ++ " hours" ∧
      (durationCat "ambush").1 ≤ n ∧ n ≤ (durationCat "ambush").2) :=
  ⟨by decide,
    estimateCasualties_duration_hours (kbGet "Romans") (kbGet "Samurai") "Romans"
      (6/5) "ambush" "clear" "plains" false 10000 10000 "Romans" 0 (by decide)⟩

/-- Does a string have the shape `"<int>-<int> hours"` (digits, a dash,
digits, then the literal suffix)? -/
def matchesRangeHours (str : String) : Bool :=
  let cs := str.toList
  let d1 := cs.takeWhile Char.isDigit
  let r1 := cs.dropWhile Char.isDigit
  if d1.isEmpty then false
  else
    match r1 with
    | '-' :: r2 =>
      let d2 := r2.takeWhile Char.isDigit
      let r3 := r2.dropWhile Char.isDigit
      !d2.isEmpty && (r3 == " hours".toList)
    | _ => false

/-- C8 (counterexample): for the non-siege scenario `"ambush"` (Romans vs
Samurai, generator state 0), the duration string produced by
`estimate_casualties` does not match the claimed pattern
`"<int>-<int> hours"` — the source formats a single integer, not a range. -/
theorem estimateCasualties_duration_pattern_counterexample :
    matchesRangeHours
      ((estimateCasualties (kbGet "Romans") (kbGet "Samurai") "Romans" (6/5)
        "ambush" "clear" "plains" false 10000 10000 "Romans" 0).1.duration) = false := by
  rfl

/-- Rebuilding a string from its character list is the identity. -/
theorem strMk_toList (s : String) : String.mk s.toList = s := rfl

/-- A replacement pass leaves a string without any occurrence of the pattern
unchanged. -/
theorem replaceAux_id (pat repl : List Char) (hne : pat ≠ []) :
    ∀ (fuel : Nat) (s : List Char), hasSub s pat = false →
      replaceAux pat repl fuel s = s := by
  intro fuel
  induction fuel with
  | zero => intro s h; cases s <;> rfl
  | succ n ih =>
    intro s h
    cases s with
    | nil => rfl
    | cons c rest =>
      simp only [hasSub, Bool.or_eq_false_iff] at h
      show replaceAux pat repl (n + 1) (c :: rest) = c :: rest
      simp only [replaceAux]
      rw [if_neg (by simp [h.1]), ih rest h.2]

/-- `str.replace` is the identity when the pattern does not occur. -/
theorem strReplace_id (t pat repl : String) (hne : pat.toList ≠ [])
    (h : strContains t pat = false) : strReplace t pat repl = t := by
  unfold strReplace
  unfold strContains at h
  rw [replaceAux_id pat.toList repl.toList hne _ t.toList h]
  exact strMk_toList t

/-- `sanitize` is the identity on inputs containing no banned word. -/
theorem sanitize_id (t : String)
    (h1 : strContains t "savage" = false) (h2 : strContains t "barbaric" = false)
    (h3 : strContains t "primitive" = false) : sanitize t = t := by
  unfold sanitize BANNED
  simp only [List.foldl]
  rw [strReplace_id t "savage" "" (by decide) h1,
    strReplace_id t "barbaric" "" (by decide) h2,
    strReplace_id t "primitive" "" (by decide) h3]

/-- C7 (counterexample): `lint_prompt` applied to the prompt
`"savsavageage"` (Romans vs Samurai) returns a string that still contains the
banned token `"savage"`: the single left-to-right replacement pass removes the
inner occurrence and the surrounding characters reassemble into a new one. -/
theorem lintPrompt_banned_counterexample :
    strContains (lintPrompt "savsavageage" (kbGet "Romans") (kbGet "Samurai"))
      "savage" = true := by
  rfl

/-- C7 (amended): `lint_prompt` performs one replacement pass per banned
token, which guarantees a banned-free output only when removals cannot
reassemble a banned token; in particular, on any prompt that contains no
banned token (and no anachronism term, so the guarded replacements are
no-ops), the output equals the input and contains no banned token.  Nested
occurrences such as `"savsavageage"` defeat the single pass. -/
theorem lintPrompt_clean_of_clean (p : String) (a b : Faction)
    (h1 : strContains p "savage" = false) (h2 : strContains p "barbaric" = false)
    (h3 : strContains p "primitive" = false)
    (h4 : strContains p "bombards" = false) (h5 : strContains p "rifles" = false) :
    lintPrompt p a b = p ∧
      ∀ w ∈ BANNED, strContains (lintPrompt p a b) w = false := by
  have hrepl : strReplace (strReplace p "bombards" "catapults") "rifles" "bows" = p := by
    rw [strReplace_id p "bombards" "catapults" (by decide) h4,
      strReplace_id p "rifles" "bows" (by decide) h5]
  have hout : lintPrompt p a b = p := by
    unfold lintPrompt
    dsimp only
    split
    · exact sanitize_id p h1 h2 h3
    · rw [hrepl]; exact sanitize_id p h1 h2 h3
  refine ⟨hout, ?_⟩
  intro w hw
  rw [hout]
  simp only [BANNED, List.mem_cons, List.not_mem_nil, or_false] at hw
  rcases hw with h | h | h <;> subst h <;> assumption

/-- Witness for C7's amended theorem on a clean prompt. -/
theorem lintPrompt_clean_of_clean_witness :
    (strContains "epic clash of discipline and cavalry" "savage" = false ∧
     strContains "epic clash of discipline and cavalry" "barbaric" = false ∧
     strContains "epic clash of discipline and cavalry" "primitive" = false ∧
     strContains "epic clash of discipline and cavalry" "bombards" = false ∧
     strContains "epic clash of discipline and cavalry" "rifles" = false) ∧
    lintPrompt "epic clash of discipline and cavalry" (kbGet "Romans") (kbGet "Samurai") =
      "epic clash of discipline and cavalry" :=
  ⟨⟨by rfl, by rfl, by rfl, by rfl, by rfl⟩,
    (lintPrompt_clean_of_clean "epic clash of discipline and cavalry"
      (kbGet "Romans") (kbGet "Samurai") (by rfl) (by rfl) (by rfl) (by rfl) (by rfl)).1⟩

/-- Association-list lookup only returns stored pairs. -/
theorem lookup_mem (l : List (String × Faction)) (k : String) (v : Faction)
    (h : l.lookup k = some v) : (k, v) ∈ l := by
  induction l with
  | nil => simp [List.lookup] at h
  | cons p t ih =>
    obtain ⟨a, b⟩ := p
    rw [List.lookup] at h
    cases hka : (k == a) with
    | true =>
      rw [hka] at h
      simp only [Option.some.injEq] at h
      subst h
      have : k = a := eq_of_beq hka
      subst this
      exact List.mem_cons_self _ _
    | false =>
      rw [hka] at h
      exact List.mem_cons_of_mem _ (ih h)

/-- Every base-table faction satisfies the registry invariant. -/
theorem KB_all_valid : KB.all (fun p => validFaction p.2) = true := by rfl

/-- `dictInsert` preserves "all stored factions valid" when the inserted
faction is valid. -/
theorem dictInsert_valid (acc : List (String × Faction)) (n : String) (f : Faction)
    (hacc : ∀ p ∈ acc, validFaction p.2 = true) (hf : validFaction f = true) :
    ∀ p ∈ dictInsert acc n f, validFaction p.2 = true := by
  intro p hp
  unfold dictInsert at hp
  split at hp
  · obtain ⟨q, hq, hpq⟩ := List.mem_map.mp hp
    by_cases hqn : q.1 = n
    · rw [if_pos hqn] at hpq
      rw [← hpq]
      exact hf
    · rw [if_neg hqn] at hpq
      rw [← hpq]
      exact hacc q hq
  · rcases List.mem_append.mp hp with h | h
    · exact hacc p h
    · simp only [List.mem_singleton] at h
      rw [h]
      exact hf

/-- A successfully built faction from a benign definition satisfies the
registry invariant: each supplied numeric field is in `[0,5]` by hypothesis,
each omitted one defaults to `0`; each supplied list is non-empty by
hypothesis, each omitted one defaults to a non-empty fallback. -/
theorem buildFaction_valid (name : String) (d : List (String × PyVal)) (f : Faction)
    (hg : goodDef d = true) (hb : buildFaction name d = some f) :
    validFaction f = true := by
  unfold goodDef at hg
  simp only [Bool.and_eq_true] at hg
  obtain ⟨⟨⟨⟨⟨⟨⟨⟨⟨⟨g1, g2⟩, g3⟩, g4⟩, g5⟩, g6⟩, g7⟩, g8⟩, g9⟩, g10⟩, g11⟩ := hg
  unfold buildFaction at hb
  simp only [bind, Option.bind_eq_some] at hb
  obtain ⟨v1, h1, hb⟩ := hb
  obtain ⟨v2, h2, hb⟩ := hb
  obtain ⟨v3, h3, hb⟩ := hb
  obtain ⟨v4, h4, hb⟩ := hb
  obtain ⟨v5, h5, hb⟩ := hb
  obtain ⟨v6, h6, hb⟩ := hb
  obtain ⟨v7, h7, hb⟩ := hb
  obtain ⟨v8, h8, hb⟩ := hb
  obtain ⟨l1, hl1, hb⟩ := hb
  obtain ⟨l2, hl2, hb⟩ := hb
  obtain ⟨l3, hl3, hb⟩ := hb
  simp only [Option.some.injEq] at hb
  subst hb
  unfold goodNumField at g1 g2 g3 g4 g5 g6 g7 g8
  rw [h1] at g1; rw [h2] at g2; rw [h3] at g3; rw [h4] at g4
  rw [h5] at g5; rw [h6] at g6; rw [h7] at g7; rw [h8] at g8
  unfold goodListField at g9 g10 g11
  rw [hl1] at g9; rw [hl2] at g10; rw [hl3] at g11
  unfold validFaction
  simp only [Bool.and_eq_true, decide_eq_true_eq]
  refine ⟨⟨⟨⟨⟨⟨⟨⟨⟨⟨?_, ?_⟩, ?_⟩, ?_⟩, ?_⟩, ?_⟩, ?_⟩, ?_⟩, ?_⟩, ?_⟩, ?_⟩ <;>
    first
      | exact of_decide_eq_true g1 | exact of_decide_eq_true g2
      | exact of_decide_eq_true g3 | exact of_decide_eq_true g4
      | exact of_decide_eq_true g5 | exact of_decide_eq_true g6
      | exact of_decide_eq_true g7 | exact of_decide_eq_true g8
      | exact g9 | exact g10 | exact g11

/-- The fold underlying `_factions_from_json` keeps every stored faction
valid when all definitions are benign. -/
theorem factionsFromJson_valid (obj : List (String × List (String × PyVal)))
    (hgood : ∀ e ∈ obj, goodDef e.2 = true) :
    ∀ p ∈ factionsFromJson obj, validFaction p.2 = true := by
  unfold factionsFromJson
  suffices h : ∀ (l : List (String × List (String × PyVal)))
      (acc : List (String × Faction)), (∀ e ∈ l, goodDef e.2 = true) →
      (∀ p ∈ acc, validFaction p.2 = true) →
      ∀ p ∈ l.foldl (fun out e =>
        if e.1 = "" then out
        else match buildFaction e.1 e.2 with
          | some f => dictInsert out e.1 f
          | none => out) acc, validFaction p.2 = true by
    exact h obj [] hgood (by intro p hp; simp at hp)
  intro l
  induction l with
  | nil => intro acc _ hacc p hp; exact hacc p hp
  | cons e t ih =>
    intro acc hl hacc
    rw [List.foldl_cons]
    refine ih _ (fun x hx => hl x (List.mem_cons_of_mem _ hx)) ?_
    by_cases he : e.1 = ""
    · rw [if_pos he]; exact hacc
    · rw [if_neg he]
      cases hbf : buildFaction e.1 e.2 with
      | none => exact hacc
      | some f =>
        exact dictInsert_valid acc e.1 f hacc
          (buildFaction_valid e.1 e.2 f (hl e (List.mem_cons_self _ _)) hbf)

/-- C2 (counterexample): a user definition supplying `ranged = 7` and an
explicitly empty `terrain_pref` is loaded verbatim — the merged registry then
contains a faction with an attribute outside `[0,5]` and an empty terrain
list: the loader substitutes defaults only for missing keys and never clamps. -/
theorem mergedFaction_invariant_counterexample :
    mergedFaction [("Bad", [("ranged", PyVal.int 7), ("terrain_pref", PyVal.list [])])]
      "Bad" =
      some ⟨"Bad", "Custom", 7, 0, 0, 0, 0, 0, 0, 0, [], ["neutral tones"], ["banners"]⟩ ∧
    validFaction
      ⟨"Bad", "Custom", 7, 0, 0, 0, 0, 0, 0, 0, [], ["neutral tones"], ["banners"]⟩ = false := by
  exact ⟨rfl, rfl⟩

/-- C2 (amended): every faction in the registry obtained by merging the base
table with loaded user definitions has all eight attributes in `[0,5]` and
non-empty terrain/palette/motif lists, provided each user definition is
benign — its supplied numeric fields convert to integers in `[0,5]` and its
supplied list fields are non-empty (omitted fields always default to in-range
values).  The unconditional claim fails: out-of-range numbers and explicitly
empty lists are stored verbatim. -/
theorem mergedFaction_valid (obj : List (String × List (String × PyVal)))
    (hgood : ∀ e ∈ obj, goodDef e.2 = true) (n : String) (f : Faction)
    (h : mergedFaction obj n = some f) : validFaction f = true := by
  unfold mergedFaction at h
  cases hu : (factionsFromJson obj).lookup n with
  | some g =>
    rw [hu] at h
    simp only [Option.orElse, Option.some.injEq] at h
    rw [← h]
    exact factionsFromJson_valid obj hgood (n, g) (lookup_mem _ n g hu)
  | none =>
    rw [hu] at h
    simp only [Option.orElse] at h
    exact (List.all_eq_true.mp KB_all_valid) (n, f) (lookup_mem KB n f h)

/-- Witness for C2's amended theorem: one benign user definition, looked up
in the merged registry. -/
theorem mergedFaction_valid_witness :
    goodDef [("ranged", PyVal.int 4)] = true ∧
    validFaction
      ⟨"Custom", "Custom", 4, 0, 0, 0, 0, 0, 0, 0, ["plains"], ["neutral tones"], ["banners"]⟩ = true :=
  ⟨by decide,
    mergedFaction_valid [("Custom", [("ranged", PyVal.int 4)])] (by decide) "Custom"
      ⟨"Custom", "Custom", 4, 0, 0, 0, 0, 0, 0, 0, ["plains"], ["neutral tones"], ["banners"]⟩
      rfl⟩

/-- C9: if constructing a `Faction` from one user entry fails, the loader
skips that entry entirely — the registry built from the list with the failing
entry equals the registry built without it, so every previously valid entry
is retained unchanged and nothing partial is stored. -/
theorem factionsFromJson_skips_failed (l1 l2 : List (String × List (String × PyVal)))
    (name : String) (d : List (String × PyVal)) (h : buildFaction name d = none) :
    factionsFromJson (l1 ++ (name, d) :: l2) = factionsFromJson (l1 ++ l2) := by
  unfold factionsFromJson
  rw [List.foldl_append, List.foldl_append, List.foldl_cons]
  congr 1
  by_cases hn : name = ""
  · simp [hn]
  · simp [hn, h]

/-- Witness for C9: a malformed entry (`ranged` is a list, so `int(...)`
raises) between valid entries. -/
theorem factionsFromJson_skips_failed_witness :
    buildFaction "Bad" [("ranged", PyVal.list [])] = none ∧
    factionsFromJson
      [("Good", [("ranged", PyVal.int 3)]), ("Bad", [("ranged", PyVal.list [])])] =
    factionsFromJson [("Good", [("ranged", PyVal.int 3)])] :=
  ⟨rfl,
    factionsFromJson_skips_failed [("Good", [("ranged", PyVal.int 3)])] []
      "Bad" [("ranged", PyVal.list [])] rfl⟩

end App
